import Mathlib

/-!
Shallow embedding of the taiga-back excerpt (project/template models,
watch/notify mixins, vote mixins) and proofs of the specification claims.

Django querysets are modelled as Lean lists of row structures; the database
is an explicit state record threaded through the operations.  Fallible
Django operations (`Model.objects.get`, raising `save`/`clean` paths) are
modelled with `Except String`.
-/

namespace taiga

/-- A user row (`users.User`): the fields the excerpt reads. -/
structure User where
  id : Nat
  username : String
  is_active : Bool
  is_system : Bool
deriving Repr, DecidableEq

/-- Python truthiness of an optional integer field (`None` and `0` are falsy). -/
def pyTruthyNat (o : Option Nat) : Bool :=
  o.getD 0 != 0

/-- Python truthiness of an optional string field (`None` and `""` are falsy). -/
def pyTruthyStr (o : Option String) : Bool :=
  o.getD "" != ""

/-- Case-sensitive substring test, used to model SQL/Python substring matching. -/
def strContainsSub (hay needle : String) : Bool :=
  (List.range (hay.data.length + 1)).any (fun i => needle.data.isPrefixOf (hay.data.drop i))

/-- `Model.objects.get(...)`: succeeds iff exactly one row matches, raises
`DoesNotExist` on zero matches and `MultipleObjectsReturned` on several. -/
def djangoGet {ρ : Type} (tbl : List ρ) (pred : ρ → Bool) : Except String ρ :=
  match tbl.filter pred with
  | [] => .error "DoesNotExist"
  | [r] => .ok r
  | _ => .error "MultipleObjectsReturned"

namespace projects

/-- Row of `projects.UserStoryStatus` (fields in model order, plus pk). -/
structure UserStoryStatusRow where
  id : Nat
  name : String
  slug : String
  order : Int
  is_closed : Bool
  is_archived : Bool
  color : String
  wip_limit : Option Int
  project : Nat
deriving Repr, DecidableEq

/-- Row of `projects.Points`. -/
structure PointsRow where
  id : Nat
  name : String
  order : Int
  value : Option Rat
  project : Nat
deriving Repr, DecidableEq

/-- Row of `projects.TaskStatus`. -/
structure TaskStatusRow where
  id : Nat
  name : String
  slug : String
  order : Int
  is_closed : Bool
  color : String
  project : Nat
deriving Repr, DecidableEq

/-- Row of `projects.Priority`. -/
structure PriorityRow where
  id : Nat
  name : String
  order : Int
  color : String
  project : Nat
deriving Repr, DecidableEq

/-- Row of `projects.Severity`. -/
structure SeverityRow where
  id : Nat
  name : String
  order : Int
  color : String
  project : Nat
deriving Repr, DecidableEq

/-- Row of `projects.IssueStatus`. -/
structure IssueStatusRow where
  id : Nat
  name : String
  slug : String
  order : Int
  is_closed : Bool
  color : String
  project : Nat
deriving Repr, DecidableEq

/-- Row of `projects.IssueType`. -/
structure IssueTypeRow where
  id : Nat
  name : String
  order : Int
  color : String
  project : Nat
deriving Repr, DecidableEq

/-- Row of `users.Role`.  The `users` app is outside the excerpt; the fields
are reconstructed from how `ProjectTemplate.load_data_from_project` and
`apply_to_project` read and create roles (name, slug, permissions, order,
computable, project). -/
structure RoleRow where
  id : Nat
  name : String
  slug : String
  permissions : List String
  order : Int
  computable : Bool
  project : Nat
deriving Repr, DecidableEq

/-- Row of `projects.Membership`.  `id = none` models an unsaved instance;
`user = none` together with an `email` models a pending invitation. -/
structure MembershipRow where
  id : Option Nat
  user : Option Nat
  project : Nat
  role : Nat
  is_owner : Bool
  email : Option String
deriving Repr, DecidableEq

/-- The relational store backing the projects app, with a fresh-pk counter. -/
structure DB where
  us_statuses : List UserStoryStatusRow
  points : List PointsRow
  task_statuses : List TaskStatusRow
  issue_statuses : List IssueStatusRow
  issue_types : List IssueTypeRow
  priorities : List PriorityRow
  severities : List SeverityRow
  roles : List RoleRow
  memberships : List MembershipRow
  next_id : Nat
deriving Repr, DecidableEq

/-- `projects.Project`: the fields the excerpted behaviour touches.
`id = none` models an unsaved project.  Default taxonomy pointers hold the
pk of the referenced row (`None` when unset). -/
structure Project where
  id : Option Nat
  name : String
  slug : String
  owner : Option Nat
  modified_date : Option Nat
  is_backlog_activated : Bool
  is_kanban_activated : Bool
  is_wiki_activated : Bool
  is_issues_activated : Bool
  videoconferences : Option String
  videoconferences_extra_data : Option String
  creation_template : Option Nat
  anon_permissions : List String
  public_permissions : List String
  is_private : Bool
  default_points : Option Nat
  default_us_status : Option Nat
  default_task_status : Option Nat
  default_priority : Option Nat
  default_severity : Option Nat
  default_issue_status : Option Nat
  default_issue_type : Option Nat
  importing : Bool
deriving Repr, DecidableEq

/-- Snapshot entry of a user story status inside a template (`us_statuses` JSON). -/
structure UserStoryStatusData where
  name : String
  slug : String
  is_closed : Bool
  is_archived : Bool
  color : String
  wip_limit : Option Int
  order : Int
deriving Repr, DecidableEq

/-- Snapshot entry of a points record inside a template. -/
structure PointsData where
  name : String
  value : Option Rat
  order : Int
deriving Repr, DecidableEq

/-- Snapshot entry of a task status inside a template. -/
structure TaskStatusData where
  name : String
  slug : String
  is_closed : Bool
  color : String
  order : Int
deriving Repr, DecidableEq

/-- Snapshot entry of an issue status inside a template. -/
structure IssueStatusData where
  name : String
  slug : String
  is_closed : Bool
  color : String
  order : Int
deriving Repr, DecidableEq

/-- Snapshot entry of an issue type inside a template. -/
structure IssueTypeData where
  name : String
  color : String
  order : Int
deriving Repr, DecidableEq

/-- Snapshot entry of a priority inside a template. -/
structure PriorityData where
  name : String
  color : String
  order : Int
deriving Repr, DecidableEq

/-- Snapshot entry of a severity inside a template. -/
structure SeverityData where
  name : String
  color : String
  order : Int
deriving Repr, DecidableEq

/-- Snapshot entry of a role inside a template. -/
structure RoleData where
  name : String
  slug : String
  permissions : List String
  order : Int
  computable : Bool
deriving Repr, DecidableEq

/-- The `default_options` JSON of a template: default record names per taxonomy. -/
structure DefaultOptions where
  points : Option String
  us_status : Option String
  task_status : Option String
  issue_status : Option String
  issue_type : Option String
  priority : Option String
  severity : Option String
deriving Repr, DecidableEq

/-- `projects.ProjectTemplate`: behavioural fields (JSON snapshot lists and
the flags copied to/from projects). -/
structure ProjectTemplate where
  id : Option Nat
  default_owner_role : Option String
  is_backlog_activated : Bool
  is_kanban_activated : Bool
  is_wiki_activated : Bool
  is_issues_activated : Bool
  videoconferences : Option String
  videoconferences_extra_data : Option String
  default_options : DefaultOptions
  us_statuses : List UserStoryStatusData
  points : List PointsData
  task_statuses : List TaskStatusData
  issue_statuses : List IssueStatusData
  issue_types : List IssueTypeData
  priorities : List PriorityData
  severities : List SeverityData
  roles : List RoleData
deriving Repr, DecidableEq

/-- Models `getattr(project.default_x, "name", None)`: resolve the optional
foreign key against its table and read the row's name, `None` when unset. -/
def resolveName {ρ : Type} (idOf : ρ → Nat) (nameOf : ρ → String)
    (tbl : List ρ) (dflt : Option Nat) : Option String :=
  (dflt.bind (fun i => tbl.find? (fun r => idOf r == i))).map nameOf

/-- `Membership.clean` (models.py:85-89): reject a second membership for the
same `(user, project)` pair; the check is skipped entirely for invitations
(`self.user` falsy). -/
def Membership.clean (db : List MembershipRow) (self : MembershipRow) :
    Except String Unit :=
  let memberships := db.filter (fun m => (m.user == self.user) && (m.project == self.project))
  if self.user.isSome then
    match memberships with
    | [] => .ok ()
    | m :: _ => if m.id != self.id then .error "The user is already member of the project" else .ok ()
  else .ok ()

/-- The snapshot part of `ProjectTemplate.load_data_from_project`
(models.py:655-744): copy the project flags, resolve the default-record
names, and serialize every taxonomy row of the project into the template's
JSON lists. -/
def snapshotTemplate (db : DB) (p : Project) (t : ProjectTemplate) : ProjectTemplate :=
    { t with
      is_backlog_activated := p.is_backlog_activated
      is_kanban_activated := p.is_kanban_activated
      is_wiki_activated := p.is_wiki_activated
      is_issues_activated := p.is_issues_activated
      videoconferences := p.videoconferences
      videoconferences_extra_data := p.videoconferences_extra_data
      default_options :=
        { points := resolveName (fun r => r.id) (fun r => r.name) db.points p.default_points
          us_status := resolveName (fun r => r.id) (fun r => r.name) db.us_statuses p.default_us_status
          task_status := resolveName (fun r => r.id) (fun r => r.name) db.task_statuses p.default_task_status
          issue_status := resolveName (fun r => r.id) (fun r => r.name) db.issue_statuses p.default_issue_status
          issue_type := resolveName (fun r => r.id) (fun r => r.name) db.issue_types p.default_issue_type
          priority := resolveName (fun r => r.id) (fun r => r.name) db.priorities p.default_priority
          severity := resolveName (fun r => r.id) (fun r => r.name) db.severities p.default_severity }
      us_statuses := (db.us_statuses.filter (fun r => some r.project == p.id)).map
        (fun r => { name := r.name, slug := r.slug, is_closed := r.is_closed,
                    is_archived := r.is_archived, color := r.color,
                    wip_limit := r.wip_limit, order := r.order })
      points := (db.points.filter (fun r => some r.project == p.id)).map
        (fun r => { name := r.name, value := r.value, order := r.order })
      task_statuses := (db.task_statuses.filter (fun r => some r.project == p.id)).map
        (fun r => { name := r.name, slug := r.slug, is_closed := r.is_closed,
                    color := r.color, order := r.order })
      issue_statuses := (db.issue_statuses.filter (fun r => some r.project == p.id)).map
        (fun r => { name := r.name, slug := r.slug, is_closed := r.is_closed,
                    color := r.color, order := r.order })
      issue_types := (db.issue_types.filter (fun r => some r.project == p.id)).map
        (fun r => { name := r.name, color := r.color, order := r.order })
      priorities := (db.priorities.filter (fun r => some r.project == p.id)).map
        (fun r => { name := r.name, color := r.color, order := r.order })
      severities := (db.severities.filter (fun r => some r.project == p.id)).map
        (fun r => { name := r.name, color := r.color, order := r.order })
      roles := (db.roles.filter (fun r => some r.project == p.id)).map
        (fun r => { name := r.name, slug := r.slug, permissions := r.permissions,
                    order := r.order, computable := r.computable }) }

/-- `ProjectTemplate.load_data_from_project` (models.py:654-750): snapshot the
project's flags, taxonomy rows and default-record names into the template,
then resolve the owner's role slug (falling back to the first snapshotted
role when the owner has no membership). -/
def ProjectTemplate.load_data_from_project (db : DB) (p : Project)
    (t : ProjectTemplate) : Except String ProjectTemplate :=
  let t1 : ProjectTemplate := snapshotTemplate db p t
  match djangoGet db.memberships (fun m => (some m.project == p.id) && (m.user == p.owner)) with
  | .ok m =>
    match db.roles.find? (fun r => r.id == m.role) with
    | some role => .ok { t1 with default_owner_role := some role.slug }
    | none => .error "DoesNotExist"
  | .error e =>
    if e == "DoesNotExist" then
      match t1.roles.head? with
      | some rd => .ok { t1 with default_owner_role := some rd.slug }
      | none => .error "IndexError"
    else .error e

/-- The rows created by a sequence of `objects.create` calls starting at the
given fresh pk. -/
def newRows {δ ρ : Type} (mk : Nat → δ → ρ) : Nat → List δ → List ρ
  | _, [] => []
  | n, d :: rest => mk n d :: newRows mk (n + 1) rest

/-- A `for ... : Model.objects.create(...)` loop: append each created row to
the table, handing out consecutive fresh pks. -/
def createRows {δ ρ : Type} (mk : Nat → δ → ρ) :
    List ρ → Nat → List δ → List ρ × Nat
  | tbl, n, [] => (tbl, n)
  | tbl, n, d :: rest => createRows mk (tbl ++ [mk n d]) (n + 1) rest

/-- `UserStoryStatus.objects.create(...)` in `apply_to_project`: the row built
from one snapshot entry, scoped to the target project, with a fresh pk. -/
def mkUsStatusRow (pid : Nat) (i : Nat) (d : UserStoryStatusData) : UserStoryStatusRow :=
  { id := i, name := d.name, slug := d.slug, order := d.order, is_closed := d.is_closed, is_archived := d.is_archived, color := d.color, wip_limit := d.wip_limit, project := pid }

/-- `Points.objects.create(...)` in `apply_to_project`. -/
def mkPointsRow (pid : Nat) (i : Nat) (d : PointsData) : PointsRow :=
  { id := i, name := d.name, order := d.order, value := d.value, project := pid }

/-- `TaskStatus.objects.create(...)` in `apply_to_project`. -/
def mkTaskStatusRow (pid : Nat) (i : Nat) (d : TaskStatusData) : TaskStatusRow :=
  { id := i, name := d.name, slug := d.slug, order := d.order, is_closed := d.is_closed, color := d.color, project := pid }

/-- `IssueStatus.objects.create(...)` in `apply_to_project`. -/
def mkIssueStatusRow (pid : Nat) (i : Nat) (d : IssueStatusData) : IssueStatusRow :=
  { id := i, name := d.name, slug := d.slug, order := d.order, is_closed := d.is_closed, color := d.color, project := pid }

/-- `IssueType.objects.create(...)` in `apply_to_project`. -/
def mkIssueTypeRow (pid : Nat) (i : Nat) (d : IssueTypeData) : IssueTypeRow :=
  { id := i, name := d.name, order := d.order, color := d.color, project := pid }

/-- `Priority.objects.create(...)` in `apply_to_project`. -/
def mkPriorityRow (pid : Nat) (i : Nat) (d : PriorityData) : PriorityRow :=
  { id := i, name := d.name, order := d.order, color := d.color, project := pid }

/-- `Severity.objects.create(...)` in `apply_to_project`. -/
def mkSeverityRow (pid : Nat) (i : Nat) (d : SeverityData) : SeverityRow :=
  { id := i, name := d.name, order := d.order, color := d.color, project := pid }

/-- `Role.objects.create(...)` in `apply_to_project`. -/
def mkRoleRow (pid : Nat) (i : Nat) (d : RoleData) : RoleRow :=
  { id := i, name := d.name, slug := d.slug, permissions := d.permissions, order := d.order, computable := d.computable, project := pid }

/-- One `if self.xs: project.default_x = Model.objects.get(name=..., project=project)`
step of `apply_to_project`. -/
def setDefault {ρ : Type} (isEmptySnapshot : Bool) (project : Project)
    (tbl : List ρ) (pred : ρ → Bool) (upd : ρ → Project) :
    Except String Project :=
  if isEmptySnapshot then .ok project
  else do
    let row ← djangoGet tbl pred
    .ok (upd row)

/-- The `default_*` re-resolution block of `apply_to_project`
(models.py:840-862): for each non-empty snapshot list, look the default
record up by name among the target project's rows of that taxonomy. -/
def applyDefaults (t : ProjectTemplate) (db2 : DB) (pid : Nat)
    (project : Project) : Except String Project := do
  let project ← setDefault t.points.isEmpty project db2.points
    (fun r => (some r.name == t.default_options.points) && (r.project == pid))
    (fun row => { project with default_points := some row.id })
  let project ← setDefault t.us_statuses.isEmpty project db2.us_statuses
    (fun r => (some r.name == t.default_options.us_status) && (r.project == pid))
    (fun row => { project with default_us_status := some row.id })
  let project ← setDefault t.task_statuses.isEmpty project db2.task_statuses
    (fun r => (some r.name == t.default_options.task_status) && (r.project == pid))
    (fun row => { project with default_task_status := some row.id })
  let project ← setDefault t.issue_statuses.isEmpty project db2.issue_statuses
    (fun r => (some r.name == t.default_options.issue_status) && (r.project == pid))
    (fun row => { project with default_issue_status := some row.id })
  let project ← setDefault t.issue_types.isEmpty project db2.issue_types
    (fun r => (some r.name == t.default_options.issue_type) && (r.project == pid))
    (fun row => { project with default_issue_type := some row.id })
  let project ← setDefault t.priorities.isEmpty project db2.priorities
    (fun r => (some r.name == t.default_options.priority) && (r.project == pid))
    (fun row => { project with default_priority := some row.id })
  let project ← setDefault t.severities.isEmpty project db2.severities
    (fun r => (some r.name == t.default_options.severity) && (r.project == pid))
    (fun row => { project with default_severity := some row.id })
  .ok project

/-- The flag-copy prefix of `apply_to_project` (models.py:758-764). -/
def appliedFlags (t : ProjectTemplate) (project : Project) : Project :=
  { project with
    creation_template := t.id
    is_backlog_activated := t.is_backlog_activated
    is_kanban_activated := t.is_kanban_activated
    is_wiki_activated := t.is_wiki_activated
    is_issues_activated := t.is_issues_activated
    videoconferences := t.videoconferences
    videoconferences_extra_data := t.videoconferences_extra_data }

/-- The row-creation loops of `apply_to_project` (models.py:766-838): each
taxonomy snapshot list is materialized as fresh rows scoped to the target
project, consuming consecutive fresh pks. -/
def appliedTaxonomies (db : DB) (t : ProjectTemplate) (pid : Nat) : DB :=
  let r1 := createRows (mkUsStatusRow pid) db.us_statuses db.next_id t.us_statuses
  let r2 := createRows (mkPointsRow pid) db.points r1.2 t.points
  let r3 := createRows (mkTaskStatusRow pid) db.task_statuses r2.2 t.task_statuses
  let r4 := createRows (mkIssueStatusRow pid) db.issue_statuses r3.2 t.issue_statuses
  let r5 := createRows (mkIssueTypeRow pid) db.issue_types r4.2 t.issue_types
  let r6 := createRows (mkPriorityRow pid) db.priorities r5.2 t.priorities
  let r7 := createRows (mkSeverityRow pid) db.severities r6.2 t.severities
  let r8 := createRows (mkRoleRow pid) db.roles r7.2 t.roles
  { db with
    us_statuses := r1.1
    points := r2.1
    task_statuses := r3.1
    issue_statuses := r4.1
    issue_types := r5.1
    priorities := r6.1
    severities := r7.1
    roles := r8.1
    next_id := r8.2 }

/-- `ProjectTemplate.apply_to_project` (models.py:752-864): refuse unsaved
projects, copy the template flags, create fresh taxonomy rows scoped to the
target project, then re-resolve the `default_*` pointers by name among the
target project's rows. -/
def ProjectTemplate.apply_to_project (db : DB) (t : ProjectTemplate)
    (project : Project) : Except String (Project × DB) :=
  match project.id with
  | none => .error "Project need an id (must be a saved project)"
  | some pid =>
    let project := appliedFlags t project
    let db2 := appliedTaxonomies db t pid
    match applyDefaults t db2 pid project with
    | .error e => .error e
    | .ok project => .ok (project, db2)

/-- Modelled from the spec: `slugify` (from `taiga.base.utils.slug`, outside
the excerpt) lowercases the input and replaces non-alphanumeric characters
with dashes. -/
def slugify (s : String) : String :=
  String.mk (s.data.map (fun c => if c.isAlphanum then c.toLower else '-'))

/-- Modelled from the spec: `slugify_uniquely(base_name, cls)` (outside the
excerpt) slugifies the base name; `Project.save` additionally retries with
numeric suffixes until the slug is unique. -/
def slugify_uniquely (base : String) : String :=
  slugify base

/-- The suffix-retry loop of `Project.save` (models.py:216-219), iterating
over `arithmetic_progression()` (modelled from the spec as 1, 2, 3, ...) and
stopping once the slug is unused or the counter exceeds 100; `fuel` bounds
the recursion, 102 iterations always suffice. -/
def slugRetryLoop (existing : List String) (base : String) :
    Nat → String → Nat → String
  | 0, slug, _ => slug
  | fuel + 1, slug, i =>
    if !(existing.contains slug) || decide (i > 100) then slug
    else slugRetryLoop existing base fuel (base ++ "-" ++ toString i) (i + 1)

/-- The slug-generation block of `Project.save` (models.py:212-220):
`base_name = "{owner.username}-{name}"`, slugified, then passed through the
uniqueness retry loop; reading `self.owner.username` on a project without an
owner raises. -/
def generatedSlug (users : List User) (existing_slugs : List String)
    (p : Project) : Except String String :=
  match p.owner.bind (fun oid => users.find? (fun u => u.id == oid)) with
  | none => .error "AttributeError"
  | some owner =>
    let base_name := owner.username ++ "-" ++ p.name
    let base_slug := slugify_uniquely base_name
    .ok (slugRetryLoop existing_slugs base_slug 102 base_slug 1)

/-- `Project.save` (models.py:208-225): refresh `modified_date`, generate a
slug from the owner's username and the project name when blank, and clear
`videoconferences_extra_data` when no videoconference system is set. -/
def Project.save (users : List User) (existing_slugs : List String)
    (now : Nat) (p : Project) : Except String Project :=
  let p1 := if !p.importing || p.modified_date.isNone then { p with modified_date := some now } else p
  match (if p1.slug == "" then generatedSlug users existing_slugs p1 else .ok p1.slug : Except String String) with
  | .error e => .error e
  | .ok slug =>
    let p2 := { p1 with slug := slug }
    if !(pyTruthyStr p2.videoconferences) then
      .ok { p2 with videoconferences_extra_data := none }
    else .ok p2

/-- Notification levels (`taiga.projects.notifications.choices.NotifyLevel`,
outside the excerpt; the excerpt only compares against `ignore`). -/
inductive NotifyLevel where
  | involved
  | watch
  | ignore
deriving Repr, DecidableEq

/-- A per-(user, project) notify policy row. -/
structure NotifyPolicyRow where
  user : Nat
  project : Nat
  notify_level : NotifyLevel
deriving Repr, DecidableEq

/-- `Project._get_q_watchers` (models.py:346-347):
`Q(notify_policies__project_id=self.id) & ~Q(notify_policies__notify_level=ignore)`
used inside `filter()`. The positive multi-valued lookup tests the joined
policy row, but Django compiles the negated multi-valued lookup through
`split_exclude` into a project-uncorrelated NOT-IN subquery (a negated
condition over a to-many relation inside `filter` behaves like `exclude`),
so a user is a watcher iff they hold a policy row for this project and hold
no ignore-level policy row on any project at all. -/
def get_q_watchers (policies : List NotifyPolicyRow) (p : Project) (u : User) : Bool :=
  (policies.any (fun np => (some np.project == p.id) && (np.user == u.id)))
    && !(policies.any (fun np => (np.user == u.id) && (np.notify_level == NotifyLevel.ignore)))

/-- `Project.get_related_people` (models.py:352-369): owner (when the owner
id is truthy) OR watchers, then exclude inactive users, exclude system users
and drop duplicates. -/
def Project.get_related_people (users : List User)
    (policies : List NotifyPolicyRow) (p : Project) : List User :=
  let related := users.filter (fun u =>
    (if pyTruthyNat p.owner then u.id == p.owner.getD 0 else false) || get_q_watchers policies p u)
  let related := related.filter (fun u => !(u.is_active == false))
  let related := related.filter (fun u => !(u.is_system == true))
  related.dedup

end projects

/-- An object of an annotated queryset: the base row pk plus the dynamic
attributes the attach helpers add (`none` models an absent attribute). -/
structure QuerysetObj where
  id : Nat
  votes_count : Option Int := none
  is_voted : Option Bool := none
  watchers_count : Option Int := none
  is_watched : Option Bool := none
deriving Repr, DecidableEq

/-- The user attached to an HTTP request; `is_authenticated` is false for
the anonymous user. -/
structure RequestUser where
  id : Nat
  is_authenticated : Bool
deriving Repr, DecidableEq

namespace votes

/-- Row of the `votes_votes` table: the denormalized per-entity vote counter
(`count` is a nullable column, read through `coalesce`). -/
structure Votes where
  content_type_id : Nat
  object_id : Nat
  count : Option Int
deriving Repr, DecidableEq

/-- Row of the `votes_vote` table: one user's vote on one entity. -/
structure Vote where
  content_type_id : Nat
  object_id : Nat
  user_id : Nat
deriving Repr, DecidableEq

/-- `attach_votes_count_to_queryset` (votes/utils.py:21-46): one extra
correlated subquery per result row computing
`coalesce(SUM(coalesce(votes_votes.count, 0)), 0)` over the counter rows of
that (content type, object id). -/
def attach_votes_count_to_queryset (votes_votes : List Votes) (type_id : Nat)
    (queryset : List QuerysetObj) : List QuerysetObj :=
  queryset.map (fun o =>
    let cnt : Int := ((votes_votes.filter (fun v => (v.content_type_id == type_id) && (v.object_id == o.id))).map (fun v => v.count.getD 0)).sum
    { o with votes_count := some cnt })

/-- `attach_is_vote_to_queryset` (votes/utils.py:49-76): one extra correlated
subquery per result row: TRUE iff `count(*)` of the user's `votes_vote` rows
for that (content type, object id) is positive. -/
def attach_is_vote_to_queryset (user : RequestUser) (votes_vote : List Vote)
    (type_id : Nat) (queryset : List QuerysetObj) : List QuerysetObj :=
  queryset.map (fun o =>
    let b : Bool := decide (0 < (votes_vote.filter (fun v => (v.content_type_id == type_id) && (v.object_id == o.id) && (v.user_id == user.id))).length)
    { o with is_voted := some b })

/-- `BaseVotedResource.attach_votes_attrs_to_queryset`
(votes/mixins/viewsets.py:35-41): always attach the counts; attach the
user-scoped `is_voted` only for authenticated request users. -/
def BaseVotedResource.attach_votes_attrs_to_queryset (request_user : RequestUser)
    (votes_votes : List Votes) (votes_vote : List Vote) (type_id : Nat)
    (queryset : List QuerysetObj) : List QuerysetObj :=
  let qs := attach_votes_count_to_queryset votes_votes type_id queryset
  if request_user.is_authenticated then
    attach_is_vote_to_queryset request_user votes_vote type_id qs
  else qs

/-- `BaseVotedResourceSerializer.get_votes_counter`
(votes/mixins/serializers.py:21-23): `getattr(obj, "votes_count", 0) or 0`. -/
def BaseVotedResourceSerializer.get_votes_counter (o : QuerysetObj) : Int :=
  o.votes_count.getD 0

/-- `BaseVotedResourceSerializer.get_is_voted`
(votes/mixins/serializers.py:25-27): `getattr(obj, "is_voted", False) or False`. -/
def BaseVotedResourceSerializer.get_is_voted (o : QuerysetObj) : Bool :=
  o.is_voted.getD false

end votes

namespace notifications

/-- Row of the generic watch store: one user's subscription to one entity. -/
structure WatchRow where
  content_type_id : Nat
  object_id : Nat
  user_id : Nat
deriving Repr, DecidableEq

/-- Modelled from the spec: `attach_watchers_to_queryset`
(`taiga.projects.notifications.utils`, outside the excerpt) annotates each
row with its stored watcher count in bulk. -/
def attach_watchers_to_queryset (watches : List WatchRow) (type_id : Nat)
    (queryset : List QuerysetObj) : List QuerysetObj :=
  queryset.map (fun o =>
    let cnt : Int := (watches.filter (fun w => (w.content_type_id == type_id) && (w.object_id == o.id))).length
    { o with watchers_count := some cnt })

/-- Modelled from the spec: `attach_is_watched_to_queryset`
(`taiga.projects.notifications.utils`, outside the excerpt) annotates each
row with whether the given user watches it, in bulk. -/
def attach_is_watched_to_queryset (queryset : List QuerysetObj)
    (user : RequestUser) (watches : List WatchRow) (type_id : Nat) : List QuerysetObj :=
  queryset.map (fun o =>
    let b : Bool := decide (0 < (watches.filter (fun w => (w.content_type_id == type_id) && (w.object_id == o.id) && (w.user_id == user.id))).length)
    { o with is_watched := some b })

/-- `WatchedResourceMixin.attach_watchers_attrs_to_queryset`
(notifications/mixins.py:51-56): always attach the watcher counts; attach
the user-scoped `is_watched` only for authenticated request users. -/
def WatchedResourceMixin.attach_watchers_attrs_to_queryset
    (request_user : RequestUser) (watches : List WatchRow) (type_id : Nat)
    (queryset : List QuerysetObj) : List QuerysetObj :=
  let qs := attach_watchers_to_queryset watches type_id queryset
  if request_user.is_authenticated then
    attach_is_watched_to_queryset qs request_user watches type_id
  else qs

/-- `WatchedResourceModelSerializer.get_is_watched`
(notifications/mixins.py:184-186): `getattr(obj, "is_watched", False) or False`. -/
def WatchedResourceModelSerializer.get_is_watched (o : QuerysetObj) : Bool :=
  o.is_watched.getD false

/-- A history entry: the change diff payload the excerpt reads (comment text
and author).  An absent entry (`None`) is modelled by `Option`. -/
structure HistoryEntry where
  comment : String
  owner : Nat
deriving Repr, DecidableEq

/-- The observable notification state: the current watcher set of the object
and the log of notifications sent so far (history entry with its recipient
set). -/
structure NotifState where
  watchers : List Nat
  sent : List (HistoryEntry × List Nat)
deriving Repr, DecidableEq

/-- Modelled from the spec: mention extraction resolves `@username` mentions
appearing in a text against the user table. -/
def extractMentions (users : List User) (text : String) : List Nat :=
  (users.filter (fun u => strContainsSub text ("@" ++ u.username))).map (fun u => u.id)

/-- Modelled from the spec: `services.analize_object_for_watchers` (outside
the excerpt) adds the users mentioned in the change comment to the object's
watchers (idempotently). -/
def analize_object_for_watchers (users : List User) (s : NotifState)
    (comment : String) : NotifState :=
  let added := (extractMentions users comment).filter (fun u => !(s.watchers.contains u))
  { s with watchers := s.watchers ++ added }

/-- Modelled from the spec: `services.send_notifications` (outside the
excerpt) computes the fan-out from the current watcher set and records one
notification for the given history entry. -/
def services_send_notifications (s : NotifState) (h : HistoryEntry) : NotifState :=
  { s with sent := s.sent ++ [(h, s.watchers)] }

/-- `WatchedResourceMixin.send_notifications` (notifications/mixins.py:72-98):
do nothing without a history entry or when notifications are suppressed;
otherwise run mention analysis first and only then compute and send the
notification fan-out. -/
def WatchedResourceMixin.send_notifications (users : List User)
    (not_notify : Bool) (history : Option HistoryEntry) (s : NotifState) : NotifState :=
  match history with
  | none => s
  | some h =>
    if not_notify then s
    else
      let s := analize_object_for_watchers users s h.comment
      services_send_notifications s h

/-- A call into the watch store made by `restore_object`. -/
inductive WatchCall where
  | add (user : Nat)
  | remove (user : Nat)
deriving Repr, DecidableEq

/-- `WatchedResourceModelSerializer.restore_object`
(notifications/mixins.py:188-215), abstracted to the watch-store calls it
performs: pop the submitted watcher ids, return early (no calls) on creation
or when no watcher ids were submitted, otherwise diff against the object's
current watchers and add/remove resolved users. -/
def WatchedResourceModelSerializer.restore_object (users : List User)
    (old_watcher_ids : List Nat) (attrs_watchers : Option (List Nat))
    (inst : Option QuerysetObj) : List WatchCall :=
  let new_watcher_ids := (attrs_watchers.getD []).dedup
  if inst.isNone || new_watcher_ids.length == 0 then []
  else
    let old_ids := old_watcher_ids.dedup
    let adding_watcher_ids := new_watcher_ids.filter (fun i => !(old_ids.contains i))
    let removing_watcher_ids := old_ids.filter (fun i => !(new_watcher_ids.contains i))
    ((users.filter (fun u => adding_watcher_ids.contains u.id)).map (fun u => WatchCall.add u.id)) ++
    ((users.filter (fun u => removing_watcher_ids.contains u.id)).map (fun u => WatchCall.remove u.id))

end notifications

namespace users_services

/-- The project fields the favourites feed reads. -/
structure FavProject where
  id : Nat
  name : String
  slug : String
  is_private : Bool
  anon_permissions : List String
  public_permissions : List String
deriving Repr, DecidableEq

/-- A user story, task or issue as seen by the favourites feed. -/
structure FavEntity where
  id : Nat
  ref : Nat
  subject : String
  project : Nat
deriving Repr, DecidableEq

/-- A vote row keyed by entity kind tag. -/
structure FavVote where
  content_type : String
  object_id : Nat
  user : Nat
deriving Repr, DecidableEq

/-- A watch row keyed by entity kind tag. -/
structure FavWatch where
  content_type : String
  object_id : Nat
  user : Nat
deriving Repr, DecidableEq

/-- A membership with its role's permission list, as the permission gate
reads it. -/
structure FavMembership where
  user : Nat
  project : Nat
  permissions : List String
deriving Repr, DecidableEq

/-- The state the favourites feed reads. -/
structure FavDB where
  projects : List FavProject
  userstories : List FavEntity
  tasks : List FavEntity
  issues : List FavEntity
  votes : List FavVote
  watches : List FavWatch
  memberships : List FavMembership
deriving Repr, DecidableEq

/-- One item of the favourites feed: entity kind tag, `vote`/`watch` action
tag, entity pk, the display text (`name` for projects, `subject` otherwise)
and the owning project for non-project kinds. -/
structure FavItem where
  type : String
  action : String
  id : Nat
  displayText : String
  project : Option Nat
deriving Repr, DecidableEq

/-- Case-insensitive substring match for the `q` filter. -/
def strContainsCI (hay needle : String) : Bool :=
  strContainsSub hay.toLower needle.toLower

/-- Modelled from the spec: the `view_X` permission the gate checks for each
entity kind. -/
def typePermOf : String → String
  | "project" => "view_project"
  | "userstory" => "view_us"
  | "task" => "view_tasks"
  | _ => "view_issues"

/-- Modelled from the spec: the permission gate — the viewing user can view
a project via an explicit membership permission or via the project's
public/anonymous permission grants. -/
def can_view (db : FavDB) (viewer : Nat) (projId : Nat) (perm : String) : Bool :=
  match db.projects.find? (fun pr => pr.id == projId) with
  | none => false
  | some pr =>
    db.memberships.any (fun m => (m.user == viewer) && (m.project == projId) && m.permissions.contains perm)
      || pr.public_permissions.contains perm || pr.anon_permissions.contains perm

/-- Did the user vote for the entity of the given kind and pk? -/
def voted (db : FavDB) (u : Nat) (kind : String) (oid : Nat) : Bool :=
  db.votes.any (fun v => (v.content_type == kind) && (v.object_id == oid) && (v.user == u))

/-- Does the user watch the entity of the given kind and pk? -/
def watched (db : FavDB) (u : Nat) (kind : String) (oid : Nat) : Bool :=
  db.watches.any (fun w => (w.content_type == kind) && (w.object_id == oid) && (w.user == u))

/-- Modelled from the spec: the raw favourites of a user — one `vote` item
per entity the user voted for and one `watch` item per entity the user
watches, across the four entity kinds. -/
def favouriteItems (db : FavDB) (u : Nat) : List FavItem :=
  (db.projects.flatMap (fun pr =>
    (if voted db u "project" pr.id then [⟨"project", "vote", pr.id, pr.name, none⟩] else []) ++
    (if watched db u "project" pr.id then [⟨"project", "watch", pr.id, pr.name, none⟩] else []))) ++
  (db.userstories.flatMap (fun e =>
    (if voted db u "userstory" e.id then [⟨"userstory", "vote", e.id, e.subject, some e.project⟩] else []) ++
    (if watched db u "userstory" e.id then [⟨"userstory", "watch", e.id, e.subject, some e.project⟩] else []))) ++
  (db.tasks.flatMap (fun e =>
    (if voted db u "task" e.id then [⟨"task", "vote", e.id, e.subject, some e.project⟩] else []) ++
    (if watched db u "task" e.id then [⟨"task", "watch", e.id, e.subject, some e.project⟩] else []))) ++
  (db.issues.flatMap (fun e =>
    (if voted db u "issue" e.id then [⟨"issue", "vote", e.id, e.subject, some e.project⟩] else []) ++
    (if watched db u "issue" e.id then [⟨"issue", "watch", e.id, e.subject, some e.project⟩] else [])))

/-- The project whose visibility gates a feed item: the project itself for
project items, the owning project otherwise. -/
def owningProject (it : FavItem) : Option Nat :=
  if it.type == "project" then some it.id else it.project

/-- Modelled from the spec: `get_favourites_list(subject, viewer, type?,
action?, q?)` (`taiga.users.services`, outside the excerpt) — merge the
subject user's votes and watches across the four entity kinds, drop items
whose owning project the viewer cannot view, then apply the `type`,
`action` and case-insensitive `q` filters. -/
def get_favourites_list (db : FavDB) (sub_user viewer : Nat)
    (ty action q : Option String) : List FavItem :=
  let items := favouriteItems db sub_user
  let items := items.filter (fun it =>
    match owningProject it with
    | some prid => can_view db viewer prid (typePermOf it.type)
    | none => false)
  let items := match ty with
    | some s => items.filter (fun it => it.type == s)
    | none => items
  let items := match action with
    | some s => items.filter (fun it => it.action == s)
    | none => items
  match q with
  | some s => items.filter (fun it => strContainsCI it.displayText s)
  | none => items

end users_services

namespace projects

/-- A template with empty snapshot lists, used as concrete input data. -/
def emptyTemplate : ProjectTemplate :=
  { id := some 50
    default_owner_role := none
    is_backlog_activated := true
    is_kanban_activated := false
    is_wiki_activated := true
    is_issues_activated := true
    videoconferences := none
    videoconferences_extra_data := none
    default_options := { points := none, us_status := none, task_status := none, issue_status := none, issue_type := none, priority := none, severity := none }
    us_statuses := []
    points := []
    task_statuses := []
    issue_statuses := []
    issue_types := []
    priorities := []
    severities := []
    roles := [] }

/-- A baseline project record used as concrete input data. -/
def baseProject : Project :=
  { id := none
    name := "Example"
    slug := "example"
    owner := some 10
    modified_date := some 5
    is_backlog_activated := true
    is_kanban_activated := false
    is_wiki_activated := true
    is_issues_activated := true
    videoconferences := none
    videoconferences_extra_data := none
    creation_template := none
    anon_permissions := []
    public_permissions := []
    is_private := true
    default_points := none
    default_us_status := none
    default_task_status := none
    default_priority := none
    default_severity := none
    default_issue_status := none
    default_issue_type := none
    importing := false }

/-- An empty database, used as concrete input data. -/
def emptyDB : DB :=
  { us_statuses := []
    points := []
    task_statuses := []
    issue_statuses := []
    issue_types := []
    priorities := []
    severities := []
    roles := []
    memberships := []
    next_id := 1 }

/-- A database holding one row of every taxonomy for project 1, the owner's
membership, and nothing for project 2; used as concrete input data. -/
def sourceDB : DB :=
  { us_statuses := [{ id := 101, name := "New", slug := "new", order := 1, is_closed := false, is_archived := false, color := "#999999", wip_limit := none, project := 1 }]
    points := [{ id := 102, name := "?", order := 1, value := none, project := 1 }]
    task_statuses := [{ id := 103, name := "New", slug := "new", order := 1, is_closed := false, color := "#999999", project := 1 }]
    issue_statuses := [{ id := 104, name := "New", slug := "new", order := 1, is_closed := false, color := "#999999", project := 1 }]
    issue_types := [{ id := 105, name := "Bug", order := 1, color := "#999999", project := 1 }]
    priorities := [{ id := 106, name := "Normal", order := 1, color := "#999999", project := 1 }]
    severities := [{ id := 107, name := "Normal", order := 1, color := "#999999", project := 1 }]
    roles := [{ id := 108, name := "Back", slug := "back", permissions := ["view_project"], order := 1, computable := true, project := 1 }]
    memberships := [{ id := some 109, user := some 10, project := 1, role := 108, is_owner := true, email := none }]
    next_id := 200 }

/-- Project 1 of `sourceDB`, with all `default_*` pointers set. -/
def sourceProject : Project :=
  { baseProject with
    id := some 1
    default_points := some 102
    default_us_status := some 101
    default_task_status := some 103
    default_priority := some 106
    default_severity := some 107
    default_issue_status := some 104
    default_issue_type := some 105 }

/-- Project 2: a saved project with no taxonomy rows and no defaults. -/
def targetProject : Project :=
  { baseProject with id := some 2, slug := "example-2" }

/-- No row of any taxonomy table is scoped to the given project. -/
def noProjectRows (db : DB) (pid : Nat) : Prop :=
  db.us_statuses.filter (fun r => r.project == pid) = []
  ∧ db.points.filter (fun r => r.project == pid) = []
  ∧ db.task_statuses.filter (fun r => r.project == pid) = []
  ∧ db.issue_statuses.filter (fun r => r.project == pid) = []
  ∧ db.issue_types.filter (fun r => r.project == pid) = []
  ∧ db.priorities.filter (fun r => r.project == pid) = []
  ∧ db.severities.filter (fun r => r.project == pid) = []
  ∧ db.roles.filter (fun r => r.project == pid) = []

/-- The default pointer of one taxonomy is consistent for the given project:
when unset, the project has no row of that taxonomy; when set, it resolves
to a row scoped to the project. -/
def defaultOk {ρ : Type} (idOf : ρ → Nat) (projOf : ρ → Nat) (tbl : List ρ)
    (dflt : Option Nat) (pid : Nat) : Prop :=
  match dflt with
  | none => tbl.filter (fun r => projOf r == pid) = []
  | some did =>
    match tbl.find? (fun r => idOf r == did) with
    | some r => projOf r = pid
    | none => False

/-- The project owner has a membership whose role resolves. -/
def ownerRoleOk (db : DB) (p : Project) : Prop :=
  match djangoGet db.memberships (fun m => (some m.project == p.id) && (m.user == p.owner)) with
  | .ok m => (db.roles.find? (fun r => r.id == m.role)).isSome = true
  | .error _ => False

/-- The names of the points rows scoped to the project are pairwise distinct. -/
def nodupNames_points (db : DB) (pid : Nat) : Prop :=
  ((db.points.filter (fun r => r.project == pid)).map (fun r => r.name)).Nodup

/-- The names of the user-story statuses scoped to the project are pairwise distinct. -/
def nodupNames_us_statuses (db : DB) (pid : Nat) : Prop :=
  ((db.us_statuses.filter (fun r => r.project == pid)).map (fun r => r.name)).Nodup

/-- The names of the task statuses scoped to the project are pairwise distinct. -/
def nodupNames_task_statuses (db : DB) (pid : Nat) : Prop :=
  ((db.task_statuses.filter (fun r => r.project == pid)).map (fun r => r.name)).Nodup

/-- The names of the issue statuses scoped to the project are pairwise distinct. -/
def nodupNames_issue_statuses (db : DB) (pid : Nat) : Prop :=
  ((db.issue_statuses.filter (fun r => r.project == pid)).map (fun r => r.name)).Nodup

/-- The names of the issue types scoped to the project are pairwise distinct. -/
def nodupNames_issue_types (db : DB) (pid : Nat) : Prop :=
  ((db.issue_types.filter (fun r => r.project == pid)).map (fun r => r.name)).Nodup

/-- The names of the priorities scoped to the project are pairwise distinct. -/
def nodupNames_priorities (db : DB) (pid : Nat) : Prop :=
  ((db.priorities.filter (fun r => r.project == pid)).map (fun r => r.name)).Nodup

/-- The names of the severities scoped to the project are pairwise distinct. -/
def nodupNames_severities (db : DB) (pid : Nat) : Prop :=
  ((db.severities.filter (fun r => r.project == pid)).map (fun r => r.name)).Nodup

/-- `defaultOk` specialised to the points table. -/
def defaultOk_points (db : DB) (d : Option Nat) (pid : Nat) : Prop :=
  defaultOk (fun r => r.id) (fun r => r.project) db.points d pid

/-- `defaultOk` specialised to the user-story status table. -/
def defaultOk_us_statuses (db : DB) (d : Option Nat) (pid : Nat) : Prop :=
  defaultOk (fun r => r.id) (fun r => r.project) db.us_statuses d pid

/-- `defaultOk` specialised to the task status table. -/
def defaultOk_task_statuses (db : DB) (d : Option Nat) (pid : Nat) : Prop :=
  defaultOk (fun r => r.id) (fun r => r.project) db.task_statuses d pid

/-- `defaultOk` specialised to the issue status table. -/
def defaultOk_issue_statuses (db : DB) (d : Option Nat) (pid : Nat) : Prop :=
  defaultOk (fun r => r.id) (fun r => r.project) db.issue_statuses d pid

/-- `defaultOk` specialised to the issue type table. -/
def defaultOk_issue_types (db : DB) (d : Option Nat) (pid : Nat) : Prop :=
  defaultOk (fun r => r.id) (fun r => r.project) db.issue_types d pid

/-- `defaultOk` specialised to the priority table. -/
def defaultOk_priorities (db : DB) (d : Option Nat) (pid : Nat) : Prop :=
  defaultOk (fun r => r.id) (fun r => r.project) db.priorities d pid

/-- `defaultOk` specialised to the severity table. -/
def defaultOk_severities (db : DB) (d : Option Nat) (pid : Nat) : Prop :=
  defaultOk (fun r => r.id) (fun r => r.project) db.severities d pid

end projects

namespace users_services

/-- The scenario of `test_get_favourites_list` (tests/integration/
test_users.py:351-392): one public project granting the four view
permissions, one user story, task and issue inside it, and user 10 voting
for and watching all four entities. -/
def favScenarioDB : FavDB :=
  { projects := [{ id := 1, name := "Testing project", slug := "testing-project", is_private := false, anon_permissions := ["view_project", "view_us", "view_tasks", "view_issues"], public_permissions := [] }]
    userstories := [{ id := 1, ref := 1, subject := "Testing user story", project := 1 }]
    tasks := [{ id := 1, ref := 2, subject := "Testing task", project := 1 }]
    issues := [{ id := 1, ref := 3, subject := "Testing issue", project := 1 }]
    votes := [⟨"project", 1, 10⟩, ⟨"userstory", 1, 10⟩, ⟨"task", 1, 10⟩, ⟨"issue", 1, 10⟩]
    watches := [⟨"project", 1, 10⟩, ⟨"userstory", 1, 10⟩, ⟨"task", 1, 10⟩, ⟨"issue", 1, 10⟩]
    memberships := [⟨10, 1, ["view_project", "view_us", "view_tasks", "view_issues"]⟩] }

end users_services

/-- `some a == some b` unfolds to `a == b` for the `Option` BEq instance. -/
theorem some_beq_some {α : Type} [BEq α] (a b : α) : (some a == some b) = (a == b) := rfl

namespace projects

theorem except_ok_bind {α β : Type} (a : α) (f : α → Except String β) :
    (Except.ok a >>= f) = f a := rfl

theorem except_error_bind {α β : Type} (e : String) (f : α → Except String β) :
    ((Except.error e : Except String α) >>= f) = Except.error e := rfl

theorem except_bind_eq_error {α β : Type} {x : Except String α}
    {f : α → Except String β} {e : String} (h : x >>= f = .error e) :
    x = .error e ∨ ∃ a, x = .ok a ∧ f a = .error e := by
  cases x with
  | error e2 =>
    left
    rw [except_error_bind] at h
    have he : e2 = e := (Except.error.injEq _ _).mp h
    rw [he]
  | ok a => right; exact ⟨a, rfl, by rw [except_ok_bind] at h; exact h⟩

theorem setDefault_error_shape {ρ : Type} {c : Bool} {proj : Project}
    {tbl : List ρ} {pred : ρ → Bool} {upd : ρ → Project} {e : String}
    (h : setDefault c proj tbl pred upd = .error e) :
    e = "DoesNotExist" ∨ e = "MultipleObjectsReturned" := by
  unfold setDefault djangoGet at h
  split at h
  · simp at h
  · cases hf : tbl.filter pred with
    | nil =>
      rw [hf] at h; rw [except_error_bind] at h
      left; exact (Except.error.injEq _ _).mp h.symm
    | cons a l =>
      cases l with
      | nil => rw [hf] at h; rw [except_ok_bind] at h; simp at h
      | cons b l2 =>
        rw [hf] at h; rw [except_error_bind] at h
        right; exact (Except.error.injEq _ _).mp h.symm


/-- C3: when a saved non-invitation membership already links user U to
project P, cleaning a second membership instance with the same non-null
user and project raises the duplicate-membership validation error; cleaning
an invitation (user null, email set) never raises it, whatever rows exist. -/
theorem C3_membership_clean_duplicate (db : List MembershipRow) (self : MembershipRow) :
    ((∀ m ∈ db, m.id.isSome = true) → self.id = none →
      (∃ m ∈ db, m.user = self.user ∧ m.project = self.project ∧ m.user.isSome = true) →
      Membership.clean db self = .error "The user is already member of the project")
    ∧ (self.user = none → self.email.isSome = true → Membership.clean db self = .ok ()) := by
  constructor
  · intro hsaved hnew hex
    obtain ⟨m, hm, hmu, hmp, husome⟩ := hex
    have hselfu : self.user.isSome = true := by rw [← hmu]; exact husome
    unfold Membership.clean
    rw [if_pos hselfu]
    have hmem : m ∈ db.filter (fun x => (x.user == self.user) && (x.project == self.project)) := by
      rw [List.mem_filter]
      refine ⟨hm, ?_⟩
      simp [hmu, hmp]
    cases hflt : db.filter (fun x => (x.user == self.user) && (x.project == self.project)) with
    | nil => rw [hflt] at hmem; exact absurd hmem (List.not_mem_nil m)
    | cons hd tl =>
      have hhd : hd ∈ db := by
        have : hd ∈ db.filter (fun x => (x.user == self.user) && (x.project == self.project)) := by
          rw [hflt]; exact List.mem_cons_self hd tl
        exact (List.mem_filter.mp this).1
      obtain ⟨k, hk⟩ := Option.isSome_iff_exists.mp (hsaved hd hhd)
      have hne : (hd.id != self.id) = true := by rw [hk, hnew]; rfl
      dsimp only
      rw [if_pos hne]
  · intro hu _
    unfold Membership.clean
    have : self.user.isSome = false := by rw [hu]; rfl
    rw [if_neg (by rw [this]; exact Bool.false_ne_true)]

/-- C3 witness: a database holding one saved membership of user 10 in
project 1; cleaning a second unsaved membership of user 10 in project 1
raises, and cleaning an invitation for project 1 succeeds. -/
theorem C3_membership_clean_duplicate_witness :
    ((∀ m ∈ sourceDB.memberships, m.id.isSome = true)
      ∧ ({ id := none, user := some 10, project := 1, role := 108, is_owner := false, email := none } : MembershipRow).id = none
      ∧ (∃ m ∈ sourceDB.memberships, m.user = some 10 ∧ m.project = 1 ∧ m.user.isSome = true)
      ∧ Membership.clean sourceDB.memberships { id := none, user := some 10, project := 1, role := 108, is_owner := false, email := none } = .error "The user is already member of the project")
    ∧ (Membership.clean sourceDB.memberships { id := none, user := none, project := 1, role := 108, is_owner := false, email := some "x@y.z" } = .ok ()) := by
  refine ⟨⟨by decide, rfl, ⟨_, List.mem_cons_self _ _, rfl, rfl, rfl⟩, ?_⟩, ?_⟩
  · exact (C3_membership_clean_duplicate sourceDB.memberships _).1 (by decide) rfl
      ⟨_, List.mem_cons_self _ _, rfl, rfl, rfl⟩
  · exact (C3_membership_clean_duplicate sourceDB.memberships _).2 rfl rfl

/-- C4: applying a template to a project without a persisted identity fails
with the precondition error (returning no mutated state at all), while for
any saved project the call never fails with that precondition error. -/
theorem C4_apply_to_project_precondition :
    (∀ (db : DB) (t : ProjectTemplate) (p : Project), p.id = none →
      ProjectTemplate.apply_to_project db t p =
        .error "Project need an id (must be a saved project)")
    ∧ (∀ (db : DB) (t : ProjectTemplate) (p : Project) (pid : Nat), p.id = some pid →
      ProjectTemplate.apply_to_project db t p ≠
        .error "Project need an id (must be a saved project)") := by
  constructor
  · intro db t p hid
    unfold ProjectTemplate.apply_to_project
    rw [hid]
  · intro db t p pid hid h
    unfold ProjectTemplate.apply_to_project at h
    rw [hid] at h
    dsimp only at h
    split at h
    · rename_i e ha
      have he : e = "Project need an id (must be a saved project)" :=
        (Except.error.injEq _ _).mp h
      rw [he] at ha
      unfold applyDefaults at ha
      rcases except_bind_eq_error ha with h1 | ⟨a1, _, ha⟩
      · rcases setDefault_error_shape h1 with he2 | he2 <;> exact absurd he2 (by decide)
      rcases except_bind_eq_error ha with h1 | ⟨a2, _, ha⟩
      · rcases setDefault_error_shape h1 with he2 | he2 <;> exact absurd he2 (by decide)
      rcases except_bind_eq_error ha with h1 | ⟨a3, _, ha⟩
      · rcases setDefault_error_shape h1 with he2 | he2 <;> exact absurd he2 (by decide)
      rcases except_bind_eq_error ha with h1 | ⟨a4, _, ha⟩
      · rcases setDefault_error_shape h1 with he2 | he2 <;> exact absurd he2 (by decide)
      rcases except_bind_eq_error ha with h1 | ⟨a5, _, ha⟩
      · rcases setDefault_error_shape h1 with he2 | he2 <;> exact absurd he2 (by decide)
      rcases except_bind_eq_error ha with h1 | ⟨a6, _, ha⟩
      · rcases setDefault_error_shape h1 with he2 | he2 <;> exact absurd he2 (by decide)
      rcases except_bind_eq_error ha with h1 | ⟨a7, _, ha⟩
      · rcases setDefault_error_shape h1 with he2 | he2 <;> exact absurd he2 (by decide)
      exact absurd ha (by simp)
    · exact absurd h (by simp)

/-- C4 witness: applying the empty template to an unsaved project raises the
precondition error; applying it to saved project 2 does not. -/
theorem C4_apply_to_project_precondition_witness :
    (baseProject.id = none
      ∧ ProjectTemplate.apply_to_project emptyDB emptyTemplate baseProject =
          .error "Project need an id (must be a saved project)")
    ∧ (targetProject.id = some 2
      ∧ ProjectTemplate.apply_to_project emptyDB emptyTemplate targetProject ≠
          .error "Project need an id (must be a saved project)") :=
  ⟨⟨rfl, C4_apply_to_project_precondition.1 emptyDB emptyTemplate baseProject rfl⟩,
   ⟨rfl, C4_apply_to_project_precondition.2 emptyDB emptyTemplate targetProject 2 rfl⟩⟩


end projects

namespace votes

/-- C5: the bulk annotators are correct per row — `votes_count` equals the
summed stored counter values for the row's (entity kind, id), in particular
0 when no counter row exists, and `is_voted` is true exactly when a Vote row
of the given user exists for the row; both leave the underlying rows
unchanged (one query-level addition, no per-row lookups are modelled). -/
theorem C5_bulk_vote_annotations (votes_votes : List Votes) (votes_vote : List Vote)
    (user : RequestUser) (type_id : Nat) (qs : List QuerysetObj) (oc ov : QuerysetObj)
    (hoc : oc ∈ attach_votes_count_to_queryset votes_votes type_id qs)
    (hov : ov ∈ attach_is_vote_to_queryset user votes_vote type_id qs) :
    ((attach_votes_count_to_queryset votes_votes type_id qs).map (fun x => x.id) = qs.map (fun x => x.id))
    ∧ oc.votes_count = some (((votes_votes.filter (fun v => (v.content_type_id == type_id) && (v.object_id == oc.id))).map (fun v => v.count.getD 0)).sum)
    ∧ (votes_votes.filter (fun v => (v.content_type_id == type_id) && (v.object_id == oc.id)) = [] → oc.votes_count = some 0)
    ∧ (ov.is_voted = some true ↔ ∃ v ∈ votes_vote, v.content_type_id = type_id ∧ v.object_id = ov.id ∧ v.user_id = user.id) := by
  obtain ⟨o1, _, rfl⟩ := List.mem_map.mp hoc
  obtain ⟨o2, _, rfl⟩ := List.mem_map.mp hov
  refine ⟨?_, rfl, ?_, ?_⟩
  · unfold attach_votes_count_to_queryset
    rw [List.map_map]
    rfl
  · intro hnil
    show some _ = some 0
    dsimp only
    rw [hnil]
    rfl
  · dsimp only
    rw [Option.some_inj, decide_eq_true_eq, List.length_pos]
    constructor
    · intro hne
      obtain ⟨v, hv⟩ := List.exists_mem_of_ne_nil _ hne
      have := List.mem_filter.mp hv
      refine ⟨v, this.1, ?_⟩
      have hb := this.2
      simp only [Bool.and_eq_true, beq_iff_eq] at hb
      exact ⟨hb.1.1, hb.1.2, hb.2⟩
    · intro hex
      obtain ⟨v, hv, h1, h2, h3⟩ := hex
      intro hcon
      have : v ∈ votes_vote.filter (fun v => (v.content_type_id == type_id) && (v.object_id == o2.id) && (v.user_id == user.id)) := by
        rw [List.mem_filter]
        exact ⟨hv, by simp [h1, h2, h3]⟩
      rw [hcon] at this
      exact absurd this (List.not_mem_nil v)

/-- C5 witness: a counter row of value 3 and a vote of user 10 on entity
(kind 7, id 1) annotate the one-row queryset accordingly. -/
theorem C5_bulk_vote_annotations_witness :
    (({ id := 1, votes_count := some 3 } : QuerysetObj) ∈
        attach_votes_count_to_queryset [⟨7, 1, some 3⟩] 7 [{ id := 1 }]
      ∧ ({ id := 1, is_voted := some true } : QuerysetObj) ∈
        attach_is_vote_to_queryset ⟨10, true⟩ [⟨7, 1, 10⟩] 7 [{ id := 1 }])
    ∧ (((attach_votes_count_to_queryset [⟨7, 1, some 3⟩] 7 [{ id := 1 }]).map (fun x => x.id) = ([{ id := 1 }] : List QuerysetObj).map (fun x => x.id))
      ∧ ({ id := 1, votes_count := some 3 } : QuerysetObj).votes_count = some ((([(⟨7, 1, some 3⟩ : Votes)].filter (fun v => (v.content_type_id == 7) && (v.object_id == ({ id := 1, votes_count := some 3 } : QuerysetObj).id))).map (fun v => v.count.getD 0)).sum)
      ∧ ([(⟨7, 1, some 3⟩ : Votes)].filter (fun v => (v.content_type_id == 7) && (v.object_id == ({ id := 1, votes_count := some 3 } : QuerysetObj).id)) = [] → ({ id := 1, votes_count := some 3 } : QuerysetObj).votes_count = some 0)
      ∧ (({ id := 1, is_voted := some true } : QuerysetObj).is_voted = some true ↔ ∃ v ∈ [(⟨7, 1, 10⟩ : Vote)], v.content_type_id = 7 ∧ v.object_id = ({ id := 1, is_voted := some true } : QuerysetObj).id ∧ v.user_id = (⟨10, true⟩ : RequestUser).id)) :=
  ⟨⟨by decide, by decide⟩,
   C5_bulk_vote_annotations [⟨7, 1, some 3⟩] [⟨7, 1, 10⟩] ⟨10, true⟩ 7 [{ id := 1 }]
     { id := 1, votes_count := some 3 } { id := 1, is_voted := some true }
     (by decide) (by decide)⟩

/-- C6: for an unauthenticated request user, attaching vote and watch
attributes leaves the user-scoped `is_voted`/`is_watched` annotations absent
(the user-scoped attach step is skipped), and the serializers then report
false for every such object. -/
theorem C6_anonymous_annotations (ru : RequestUser) (hanon : ru.is_authenticated = false)
    (votes_votes : List Votes) (votes_vote : List Vote)
    (watches : List notifications.WatchRow) (type_id : Nat) (qs : List QuerysetObj)
    (ov ow : QuerysetObj)
    (hfresh : ∀ o ∈ qs, o.is_voted = none ∧ o.is_watched = none)
    (hv : ov ∈ BaseVotedResource.attach_votes_attrs_to_queryset ru votes_votes votes_vote type_id qs)
    (hw : ow ∈ notifications.WatchedResourceMixin.attach_watchers_attrs_to_queryset ru watches type_id qs) :
    (ov.is_voted = none ∧ BaseVotedResourceSerializer.get_is_voted ov = false)
    ∧ (ow.is_watched = none ∧ notifications.WatchedResourceModelSerializer.get_is_watched ow = false) := by
  unfold BaseVotedResource.attach_votes_attrs_to_queryset at hv
  rw [hanon] at hv
  rw [if_neg Bool.false_ne_true] at hv
  unfold attach_votes_count_to_queryset at hv
  obtain ⟨o1, ho1, rfl⟩ := List.mem_map.mp hv
  unfold notifications.WatchedResourceMixin.attach_watchers_attrs_to_queryset at hw
  rw [hanon] at hw
  rw [if_neg Bool.false_ne_true] at hw
  unfold notifications.attach_watchers_to_queryset at hw
  obtain ⟨o2, ho2, rfl⟩ := List.mem_map.mp hw
  have h1 := (hfresh o1 ho1).1
  have h2 := (hfresh o2 ho2).2
  refine ⟨⟨h1, ?_⟩, ⟨h2, ?_⟩⟩
  · unfold BaseVotedResourceSerializer.get_is_voted
    dsimp only
    rw [h1]
    rfl
  · unfold notifications.WatchedResourceModelSerializer.get_is_watched
    dsimp only
    rw [h2]
    rfl

/-- C6 witness: an anonymous request over a one-row queryset with a vote and
a watch stored for that row still yields absent annotations and false
serialized fields. -/
theorem C6_anonymous_annotations_witness :
    ((⟨10, false⟩ : RequestUser).is_authenticated = false
      ∧ (∀ o ∈ ([{ id := 1 }] : List QuerysetObj), o.is_voted = none ∧ o.is_watched = none)
      ∧ ({ id := 1, votes_count := some 3 } : QuerysetObj) ∈
          BaseVotedResource.attach_votes_attrs_to_queryset ⟨10, false⟩ [⟨7, 1, some 3⟩] [⟨7, 1, 10⟩] 7 [{ id := 1 }]
      ∧ ({ id := 1, watchers_count := some 1 } : QuerysetObj) ∈
          notifications.WatchedResourceMixin.attach_watchers_attrs_to_queryset ⟨10, false⟩ [⟨7, 1, 10⟩] 7 [{ id := 1 }])
    ∧ ((({ id := 1, votes_count := some 3 } : QuerysetObj).is_voted = none
        ∧ BaseVotedResourceSerializer.get_is_voted { id := 1, votes_count := some 3 } = false)
      ∧ (({ id := 1, watchers_count := some 1 } : QuerysetObj).is_watched = none
        ∧ notifications.WatchedResourceModelSerializer.get_is_watched { id := 1, watchers_count := some 1 } = false)) :=
  ⟨⟨rfl, by decide, by decide, by decide⟩,
   C6_anonymous_annotations ⟨10, false⟩ rfl [⟨7, 1, some 3⟩] [⟨7, 1, 10⟩] [⟨7, 1, 10⟩] 7
     [{ id := 1 }] { id := 1, votes_count := some 3 } { id := 1, watchers_count := some 1 }
     (by decide) (by decide) (by decide)⟩

end votes

namespace notifications

/-- C9: `restore_object` performs no watch-store call — leaving the object's
watcher set unchanged — whenever there is no existing instance (creation) or
the submitted watchers value is absent or the empty list. -/
theorem C9_restore_object_no_watch_calls (users : List User) (old_ids : List Nat)
    (attrs_watchers : Option (List Nat)) (inst : Option QuerysetObj)
    (h : inst = none ∨ attrs_watchers = none ∨ attrs_watchers = some []) :
    WatchedResourceModelSerializer.restore_object users old_ids attrs_watchers inst = [] := by
  unfold WatchedResourceModelSerializer.restore_object
  rcases h with h | h | h
  · rw [h]
    simp
  · rw [h]
    simp
  · rw [h]
    simp

/-- C9 witness: creation with submitted watchers, and an update submitting
an empty watcher list, both perform no watch-store call even though the
object currently has watchers. -/
theorem C9_restore_object_no_watch_calls_witness :
    (WatchedResourceModelSerializer.restore_object [⟨20, "bob", true, false⟩] [20] (some [20, 30]) none = []
      ∧ WatchedResourceModelSerializer.restore_object [⟨20, "bob", true, false⟩] [20] (some []) (some { id := 1 }) = []
      ∧ WatchedResourceModelSerializer.restore_object [⟨20, "bob", true, false⟩] [20] none (some { id := 1 }) = []) :=
  ⟨C9_restore_object_no_watch_calls [⟨20, "bob", true, false⟩] [20] (some [20, 30]) none (Or.inl rfl),
   C9_restore_object_no_watch_calls [⟨20, "bob", true, false⟩] [20] (some []) (some { id := 1 }) (Or.inr (Or.inr rfl)),
   C9_restore_object_no_watch_calls [⟨20, "bob", true, false⟩] [20] none (some { id := 1 }) (Or.inr (Or.inl rfl))⟩

end notifications

namespace projects


theorem slugify_length (s : String) : (slugify s).length = s.length := by
  unfold slugify
  show (s.data.map _).length = s.data.length
  exact List.length_map _ _

theorem slugRetryLoop_pos (existing : List String) (base : String) :
    ∀ (fuel : Nat) (slug : String) (i : Nat), 0 < slug.length →
      0 < (slugRetryLoop existing base fuel slug i).length := by
  intro fuel
  induction fuel with
  | zero => intro slug i h; exact h
  | succ n ih =>
    intro slug i h
    unfold slugRetryLoop
    split
    · exact h
    · apply ih
      have hdash : ("-" : String).length = 1 := rfl
      rw [String.length_append, String.length_append, hdash]
      omega

theorem generatedSlug_ok {users : List User} {existing_slugs : List String}
    {p : Project} {slug : String}
    (h : generatedSlug users existing_slugs p = .ok slug) :
    ∃ owner, p.owner.bind (fun oid => users.find? (fun u => u.id == oid)) = some owner
      ∧ slug = slugRetryLoop existing_slugs (slugify_uniquely (owner.username ++ "-" ++ p.name)) 102
          (slugify_uniquely (owner.username ++ "-" ++ p.name)) 1 := by
  unfold generatedSlug at h
  cases hf : p.owner.bind (fun oid => users.find? (fun u => u.id == oid)) with
  | none => rw [hf] at h; simp at h
  | some owner =>
    rw [hf] at h
    dsimp only at h
    exact ⟨owner, rfl, ((Except.ok.injEq _ _).mp h).symm⟩

theorem generatedSlug_pos {users : List User} {existing_slugs : List String}
    {p : Project} {slug : String}
    (h : generatedSlug users existing_slugs p = .ok slug) : 0 < slug.length := by
  obtain ⟨owner, _, rfl⟩ := generatedSlug_ok h
  apply slugRetryLoop_pos
  unfold slugify_uniquely
  have hdash : ("-" : String).length = 1 := rfl
  rw [slugify_length, String.length_append, String.length_append, hdash]
  omega

theorem length_pos_ne_empty {s : String} (h : 0 < s.length) : s ≠ "" := by
  intro hcon
  rw [hcon] at h
  exact absurd h (by decide)

/-- C10: every successful `Project.save` yields a project where an unset
videoconference system forces `videoconferences_extra_data` to `None`, and
whose slug is non-empty — generated by the retry loop from the slugified
"owner username-project name" base when the slug was blank. -/
theorem C10_save_invariants (users : List User) (existing_slugs : List String)
    (now : Nat) (p p2 : Project)
    (hsave : Project.save users existing_slugs now p = .ok p2) :
    (pyTruthyStr p2.videoconferences = false → p2.videoconferences_extra_data = none)
    ∧ p2.slug ≠ ""
    ∧ (p.slug = "" → ∀ owner, p.owner.bind (fun oid => users.find? (fun x => x.id == oid)) = some owner →
        p2.slug = slugRetryLoop existing_slugs (slugify_uniquely (owner.username ++ "-" ++ p.name)) 102
          (slugify_uniquely (owner.username ++ "-" ++ p.name)) 1) := by
  unfold Project.save at hsave
  by_cases hmd : (!p.importing || p.modified_date.isNone) = true
  · rw [if_pos hmd] at hsave
    dsimp only at hsave
    by_cases hslug : (p.slug == "") = true
    · rw [if_pos hslug] at hsave
      cases hg : generatedSlug users existing_slugs { p with modified_date := some now } with
      | error e => rw [hg] at hsave; exact absurd hsave (by simp)
      | ok slug =>
        rw [hg] at hsave
        dsimp only at hsave
        obtain ⟨owner, hown, hshape⟩ := generatedSlug_ok hg
        dsimp only at hown hshape
        have hpos : 0 < slug.length := generatedSlug_pos hg
        by_cases hvc : (!pyTruthyStr p.videoconferences) = true
        · rw [if_pos hvc] at hsave
          have hp2 : _ = p2 := (Except.ok.injEq _ _).mp hsave
          subst hp2
          exact ⟨fun _ => rfl, length_pos_ne_empty hpos, fun _ o2 ho2 => by
            have heq : some owner = some o2 := hown ▸ ho2
            rw [← (Option.some_inj).mp heq]
            exact hshape⟩
        · rw [if_neg hvc] at hsave
          have hp2 : _ = p2 := (Except.ok.injEq _ _).mp hsave
          subst hp2
          refine ⟨fun hcon => absurd hcon (by simpa using hvc), length_pos_ne_empty hpos,
            fun _ o2 ho2 => ?_⟩
          have heq : some owner = some o2 := hown ▸ ho2
          rw [← (Option.some_inj).mp heq]
          exact hshape
    · rw [if_neg hslug] at hsave
      have hne : p.slug ≠ "" := by simpa using hslug
      dsimp only at hsave
      by_cases hvc : (!pyTruthyStr p.videoconferences) = true
      · rw [if_pos hvc] at hsave
        have hp2 : _ = p2 := (Except.ok.injEq _ _).mp hsave
        subst hp2
        exact ⟨fun _ => rfl, hne, fun hcon => absurd hcon hne⟩
      · rw [if_neg hvc] at hsave
        have hp2 : _ = p2 := (Except.ok.injEq _ _).mp hsave
        subst hp2
        exact ⟨fun hcon => absurd hcon (by simpa using hvc), hne, fun hcon => absurd hcon hne⟩
  · rw [if_neg hmd] at hsave
    dsimp only at hsave
    by_cases hslug : (p.slug == "") = true
    · rw [if_pos hslug] at hsave
      cases hg : generatedSlug users existing_slugs p with
      | error e => rw [hg] at hsave; exact absurd hsave (by simp)
      | ok slug =>
        rw [hg] at hsave
        dsimp only at hsave
        obtain ⟨owner, hown, hshape⟩ := generatedSlug_ok hg
        have hpos : 0 < slug.length := generatedSlug_pos hg
        by_cases hvc : (!pyTruthyStr p.videoconferences) = true
        · rw [if_pos hvc] at hsave
          have hp2 : _ = p2 := (Except.ok.injEq _ _).mp hsave
          subst hp2
          exact ⟨fun _ => rfl, length_pos_ne_empty hpos, fun _ o2 ho2 => by
            have heq : some owner = some o2 := hown ▸ ho2
            rw [← (Option.some_inj).mp heq]
            exact hshape⟩
        · rw [if_neg hvc] at hsave
          have hp2 : _ = p2 := (Except.ok.injEq _ _).mp hsave
          subst hp2
          refine ⟨fun hcon => absurd hcon (by simpa using hvc), length_pos_ne_empty hpos,
            fun _ o2 ho2 => ?_⟩
          have heq : some owner = some o2 := hown ▸ ho2
          rw [← (Option.some_inj).mp heq]
          exact hshape
    · rw [if_neg hslug] at hsave
      have hne : p.slug ≠ "" := by simpa using hslug
      dsimp only at hsave
      by_cases hvc : (!pyTruthyStr p.videoconferences) = true
      · rw [if_pos hvc] at hsave
        have hp2 : _ = p2 := (Except.ok.injEq _ _).mp hsave
        subst hp2
        exact ⟨fun _ => rfl, hne, fun hcon => absurd hcon hne⟩
      · rw [if_neg hvc] at hsave
        have hp2 : _ = p2 := (Except.ok.injEq _ _).mp hsave
        subst hp2
        exact ⟨fun hcon => absurd hcon (by simpa using hvc), hne, fun hcon => absurd hcon hne⟩


/-- C10 witness: saving a project with a blank slug generates the slug
"alice-example" from owner alice and name Example, keeps it non-empty, and
clears the videoconference extra data. -/
theorem C10_save_invariants_witness :
    (Project.save [⟨10, "alice", true, false⟩] [] 0 { sourceProject with slug := "" } =
        .ok { sourceProject with slug := "alice-example", modified_date := some 0 })
    ∧ (pyTruthyStr ({ sourceProject with slug := "alice-example", modified_date := some 0 } : Project).videoconferences = false →
        ({ sourceProject with slug := "alice-example", modified_date := some 0 } : Project).videoconferences_extra_data = none)
    ∧ ({ sourceProject with slug := "alice-example", modified_date := some 0 } : Project).slug ≠ "" :=
  ⟨by rfl,
   (C10_save_invariants [⟨10, "alice", true, false⟩] [] 0 { sourceProject with slug := "" }
     { sourceProject with slug := "alice-example", modified_date := some 0 } (by rfl)).1,
   (C10_save_invariants [⟨10, "alice", true, false⟩] [] 0 { sourceProject with slug := "" }
     { sourceProject with slug := "alice-example", modified_date := some 0 } (by rfl)).2.1⟩

/-- C8: for a project whose owner id is not the degenerate 0,
`get_related_people` contains exactly the users that are the owner or a
watcher — a watcher holds a policy row for this project and no ignore-level
policy row on any project — are active and are not system users; the result
holds no duplicates. -/
theorem C8_get_related_people_spec (users : List User) (policies : List NotifyPolicyRow)
    (p : Project) (u : User) (howner : p.owner ≠ some 0) :
    (u ∈ Project.get_related_people users policies p ↔
      (u ∈ users
        ∧ (p.owner = some u.id
            ∨ ((∃ np ∈ policies, some np.project = p.id ∧ np.user = u.id)
                ∧ ∀ np ∈ policies, np.user = u.id → np.notify_level ≠ NotifyLevel.ignore))
        ∧ u.is_active = true ∧ u.is_system = false))
    ∧ (Project.get_related_people users policies p).Nodup := by
  constructor
  · unfold Project.get_related_people get_q_watchers
    rw [List.mem_dedup, List.mem_filter, List.mem_filter, List.mem_filter]
    cases ho : p.owner with
    | none =>
      simp [pyTruthyNat, List.any_eq_true, List.any_eq_false, and_assoc, beq_iff_eq,
        beq_eq_false_iff_ne, Bool.and_eq_true, Bool.not_eq_true']
    | some k =>
      have hk : (k != 0) = true := by
        have hne : k ≠ 0 := fun hk0 => howner (by rw [ho, hk0])
        simpa using hne
      simp [pyTruthyNat, hk, List.any_eq_true, List.any_eq_false, and_assoc, beq_iff_eq,
        beq_eq_false_iff_ne, Bool.and_eq_true, Bool.not_eq_true',
        Option.some.injEq, show (u.id = k) ↔ (k = u.id) from eq_comm]
  · exact List.nodup_dedup _

/-- C8 witness: in a project owned by user 10 where user 20 has a
watch-level notify policy and no ignore-level policy anywhere, the related
people of the project are characterized for user 20 and the result is
duplicate-free. -/
theorem C8_get_related_people_spec_witness :
    (sourceProject.owner ≠ some 0
      ∧ ((⟨20, "bob", true, false⟩ : User) ∈
          Project.get_related_people [⟨10, "alice", true, false⟩, ⟨20, "bob", true, false⟩]
            [⟨20, 1, NotifyLevel.watch⟩] sourceProject ↔
        ((⟨20, "bob", true, false⟩ : User) ∈ [(⟨10, "alice", true, false⟩ : User), ⟨20, "bob", true, false⟩]
          ∧ (sourceProject.owner = some 20
              ∨ ((∃ np ∈ [(⟨20, 1, NotifyLevel.watch⟩ : NotifyPolicyRow)], some np.project = sourceProject.id ∧ np.user = 20)
                  ∧ ∀ np ∈ [(⟨20, 1, NotifyLevel.watch⟩ : NotifyPolicyRow)], np.user = 20 → np.notify_level ≠ NotifyLevel.ignore))
          ∧ true = true ∧ false = false)))
    ∧ (Project.get_related_people [⟨10, "alice", true, false⟩, ⟨20, "bob", true, false⟩]
        [⟨20, 1, NotifyLevel.watch⟩] sourceProject).Nodup :=
  ⟨⟨by decide,
    (C8_get_related_people_spec [⟨10, "alice", true, false⟩, ⟨20, "bob", true, false⟩]
      [⟨20, 1, NotifyLevel.watch⟩] sourceProject ⟨20, "bob", true, false⟩ (by decide)).1⟩,
   (C8_get_related_people_spec [⟨10, "alice", true, false⟩, ⟨20, "bob", true, false⟩]
      [⟨20, 1, NotifyLevel.watch⟩] sourceProject ⟨20, "bob", true, false⟩ (by decide)).2⟩

/-- C8 counterexample to the project-scoped reading of the watcher filter:
user 20 is active, non-system, listed, and holds a watch-level policy for
project 1 — yet an ignore-level policy on the unrelated project 7 removes
them from `get_related_people` of project 1, because the negated lookup
compiles to a project-uncorrelated NOT-IN subquery. -/
theorem C8_project_scoped_watcher_counterexample :
    ((⟨20, "bob", true, false⟩ : User) ∉
        Project.get_related_people [⟨10, "alice", true, false⟩, ⟨20, "bob", true, false⟩]
          [⟨20, 1, NotifyLevel.watch⟩, ⟨20, 7, NotifyLevel.ignore⟩] sourceProject)
    ∧ (∃ np ∈ [(⟨20, 1, NotifyLevel.watch⟩ : NotifyPolicyRow), ⟨20, 7, NotifyLevel.ignore⟩],
        some np.project = sourceProject.id ∧ np.user = 20 ∧ np.notify_level ≠ NotifyLevel.ignore)
    ∧ (⟨20, "bob", true, false⟩ : User) ∈ [(⟨10, "alice", true, false⟩ : User), ⟨20, "bob", true, false⟩]
    ∧ (⟨20, "bob", true, false⟩ : User).is_active = true
    ∧ (⟨20, "bob", true, false⟩ : User).is_system = false := by
  refine ⟨by decide, ⟨⟨20, 1, NotifyLevel.watch⟩, by decide, by decide, rfl, by decide⟩, by decide, rfl, rfl⟩

end projects

namespace notifications

/-- C7: with a present history entry and notifications not suppressed,
`send_notifications` runs mention analysis before the fan-out, so any user
mentioned in the entry's comment is among the recipients of the notification
recorded for that very entry. -/
theorem C7_mentions_before_fanout (users : List User) (h : HistoryEntry)
    (s : NotifState) (u : Nat) (hu : u ∈ extractMentions users h.comment) :
    ∃ recipients, WatchedResourceMixin.send_notifications users false (some h) s =
        { watchers := recipients, sent := s.sent ++ [(h, recipients)] }
      ∧ u ∈ recipients := by
  refine ⟨s.watchers ++ (extractMentions users h.comment).filter (fun x => !(s.watchers.contains x)), ?_, ?_⟩
  · rfl
  · cases hc : s.watchers.contains u with
    | true => exact List.mem_append.mpr (Or.inl (List.mem_of_elem_eq_true hc))
    | false =>
      refine List.mem_append.mpr (Or.inr ?_)
      rw [List.mem_filter]
      exact ⟨hu, by rw [hc]; rfl⟩

/-- C7 witness: user 20 ("bob") is mentioned in the comment "ping @bob" of a
change; the notification recorded for that change reaches user 20 even
though the watcher set was empty beforehand. -/
theorem C7_mentions_before_fanout_witness :
    (20 ∈ extractMentions [⟨20, "bob", true, false⟩] (⟨"ping @bob", 10⟩ : HistoryEntry).comment)
    ∧ ∃ recipients,
        WatchedResourceMixin.send_notifications [⟨20, "bob", true, false⟩] false
          (some ⟨"ping @bob", 10⟩) ⟨[], []⟩ =
          { watchers := recipients, sent := ([] : List (HistoryEntry × List Nat)) ++ [(⟨"ping @bob", 10⟩, recipients)] }
        ∧ 20 ∈ recipients :=
  ⟨by decide,
   C7_mentions_before_fanout [⟨20, "bob", true, false⟩] ⟨"ping @bob", 10⟩ ⟨[], []⟩ 20 (by decide)⟩

end notifications

namespace projects


end projects

namespace users_services

/-- C2 counterexample: in the favourites scenario of
`test_get_favourites_list` with user 10 both favouriting and viewing,
filtering the feed with type="project" yields 2 items (the project's vote
item and its watch item), so the claimed count of 1 is false. -/
theorem C2_project_type_filter_counterexample :
    (get_favourites_list favScenarioDB 10 10 (some "project") none none).length ≠ 1 := by
  decide

/-- C2 amended: user 10 votes on and watches the public project, user story,
task and issue; the unfiltered feed for (user 10, viewer 10) has 8 items,
the type="project" filter leaves 2 items, and the action="watch" filter
leaves 4 items. -/
theorem C2_favourites_feed_counts :
    (get_favourites_list favScenarioDB 10 10 none none none).length = 8
    ∧ (get_favourites_list favScenarioDB 10 10 (some "project") none none).length = 2
    ∧ (get_favourites_list favScenarioDB 10 10 none (some "watch") none).length = 4 := by
  refine ⟨by decide, by decide, by decide⟩

end users_services

namespace projects


theorem createRows_eq {δ ρ : Type} (mk : Nat → δ → ρ) :
    ∀ (l : List δ) (tbl : List ρ) (n : Nat),
      createRows mk tbl n l = (tbl ++ newRows mk n l, n + l.length) := by
  intro l
  induction l with
  | nil => intro tbl n; simp [createRows, newRows]
  | cons d rest ih =>
    intro tbl n
    show createRows mk (tbl ++ [mk n d]) (n + 1) rest = _
    rw [ih]
    rw [Prod.mk.injEq]
    constructor
    · rw [List.append_assoc]
      rfl
    · rw [List.length_cons]
      omega

theorem newRows_length {δ ρ : Type} (mk : Nat → δ → ρ) :
    ∀ (n : Nat) (l : List δ), (newRows mk n l).length = l.length := by
  intro n l
  induction l generalizing n with
  | nil => rfl
  | cons d rest ih => show (newRows mk n (d :: rest)).length = _; rw [newRows]; simp [ih]

theorem newRows_forall_proj {δ ρ : Type} (mk : Nat → δ → ρ) (projOf : ρ → Nat) (pid : Nat)
    (hmk : ∀ i d, projOf (mk i d) = pid) :
    ∀ (n : Nat) (l : List δ), ∀ r ∈ newRows mk n l, projOf r = pid := by
  intro n l
  induction l generalizing n with
  | nil => intro r hr; exact absurd hr (List.not_mem_nil r)
  | cons d rest ih =>
    intro r hr
    rw [newRows] at hr
    rcases List.mem_cons.mp hr with h | h
    · rw [h]; exact hmk n d
    · exact ih (n + 1) r h

theorem filter_proj_append_new {ρ : Type} (projOf : ρ → Nat) (pid : Nat) (tbl new : List ρ)
    (htbl : tbl.filter (fun r => projOf r == pid) = [])
    (hnew : ∀ r ∈ new, projOf r = pid) :
    (tbl ++ new).filter (fun r => projOf r == pid) = new := by
  rw [List.filter_append, htbl, List.nil_append]
  apply List.filter_eq_self.mpr
  intro a ha
  simp [hnew a ha]

theorem filter_some_proj {ρ : Type} (projOf : ρ → Nat) (tbl : List ρ) (pid : Nat)
    (pidOpt : Option Nat) (hp : pidOpt = some pid) :
    tbl.filter (fun r => some (projOf r) == pidOpt) = tbl.filter (fun r => projOf r == pid) := by
  subst hp
  rfl

theorem newRows_filter_name_nil {δ ρ : Type} (mk : Nat → δ → ρ) (nameOf : ρ → String)
    (projOf : ρ → Nat) (dname : δ → String) (pid : Nat) (nm : String)
    (hname : ∀ i d, nameOf (mk i d) = dname d) :
    ∀ (n : Nat) (l : List δ), nm ∉ l.map dname →
      (newRows mk n l).filter (fun r => (some (nameOf r) == some nm) && (projOf r == pid)) = [] := by
  intro n l
  induction l generalizing n with
  | nil => intro _; rfl
  | cons d rest ih =>
    intro hnot
    rw [newRows, List.filter_cons]
    have hdn : dname d ≠ nm := by
      intro hcon
      exact hnot (by rw [← hcon]; exact List.mem_map_of_mem dname (List.mem_cons_self d rest))
    have hpred : ((some (nameOf (mk n d)) == some nm) && (projOf (mk n d) == pid)) = false := by
      rw [hname n d]
      have : ((some (dname d) : Option String) == some nm) = false := by
        rw [some_beq_some]
        exact beq_eq_false_iff_ne.mpr hdn
      rw [this]
      rfl
    rw [if_neg (by rw [hpred]; exact Bool.false_ne_true)]
    exact ih (n + 1) (fun hm => hnot (List.mem_map.mpr
      (by obtain ⟨x, hx, hxe⟩ := List.mem_map.mp hm; exact ⟨x, List.mem_cons_of_mem d hx, hxe⟩)))

theorem newRows_filter_name_unique {δ ρ : Type} (mk : Nat → δ → ρ) (nameOf : ρ → String)
    (projOf : ρ → Nat) (dname : δ → String) (pid : Nat) (nm : String)
    (hname : ∀ i d, nameOf (mk i d) = dname d) (hproj : ∀ i d, projOf (mk i d) = pid) :
    ∀ (n : Nat) (l : List δ), (l.map dname).Nodup → nm ∈ l.map dname →
      ∃ r, (newRows mk n l).filter (fun r => (some (nameOf r) == some nm) && (projOf r == pid)) = [r]
        ∧ nameOf r = nm ∧ projOf r = pid ∧ r ∈ newRows mk n l := by
  intro n l
  induction l generalizing n with
  | nil => intro _ hmem; exact absurd hmem (List.not_mem_nil nm)
  | cons d rest ih =>
    intro hnodup hmem
    rw [List.map_cons, List.nodup_cons] at hnodup
    rw [newRows, List.filter_cons]
    rcases List.mem_cons.mp hmem with heq | hmem2
    · have hpred : ((some (nameOf (mk n d)) == some nm) && (projOf (mk n d) == pid)) = true := by
        rw [hname n d, hproj n d, ← heq]
        simp
      rw [if_pos hpred]
      have hrest : (newRows mk (n + 1) rest).filter
          (fun r => (some (nameOf r) == some nm) && (projOf r == pid)) = [] := by
        apply newRows_filter_name_nil mk nameOf projOf dname pid nm hname
        rw [heq]
        exact hnodup.1
      rw [hrest]
      exact ⟨mk n d, rfl, by rw [hname n d, heq], hproj n d, List.mem_cons_self _ _⟩
    · have hdn : dname d ≠ nm := by
        intro hcon
        exact hnodup.1 (hcon ▸ hmem2)
      have hpred : ((some (nameOf (mk n d)) == some nm) && (projOf (mk n d) == pid)) = false := by
        rw [hname n d]
        have : ((some (dname d) : Option String) == some nm) = false := by
          rw [some_beq_some]
          exact beq_eq_false_iff_ne.mpr hdn
        rw [this]
        rfl
      rw [if_neg (by rw [hpred]; exact Bool.false_ne_true)]
      obtain ⟨r, hfil, h1, h2, h3⟩ := ih (n + 1) hnodup.2 hmem2
      exact ⟨r, hfil, h1, h2, List.mem_cons_of_mem _ h3⟩

theorem lookup_case {δ ρ : Type} (mk : Nat → δ → ρ) (nameOf : ρ → String)
    (projOf : ρ → Nat) (dname : δ → String) (pid2 : Nat) (nm : String)
    (old : List ρ) (l : List δ) (n : Nat)
    (hname : ∀ i d, nameOf (mk i d) = dname d) (hproj : ∀ i d, projOf (mk i d) = pid2)
    (hold : old.filter (fun r => projOf r == pid2) = [])
    (hnodup : (l.map dname).Nodup) (hmem : nm ∈ l.map dname) :
    ∃ nr, (old ++ newRows mk n l).filter
        (fun r => (some (nameOf r) == some nm) && (projOf r == pid2)) = [nr]
      ∧ nameOf nr = nm ∧ projOf nr = pid2 ∧ nr ∈ old ++ newRows mk n l := by
  have holdn : old.filter (fun r => (some (nameOf r) == some nm) && (projOf r == pid2)) = [] := by
    rw [List.filter_eq_nil_iff]
    intro a ha
    have : (projOf a == pid2) = false := by
      by_contra hcon
      have : a ∈ old.filter (fun r => projOf r == pid2) := by
        rw [List.mem_filter]
        exact ⟨ha, by revert hcon; cases projOf a == pid2 <;> simp⟩
      rw [hold] at this
      exact absurd this (List.not_mem_nil a)
    simp [this]
  obtain ⟨nr, hfil, h1, h2, h3⟩ :=
    newRows_filter_name_unique mk nameOf projOf dname pid2 nm hname hproj n l hnodup hmem
  refine ⟨nr, ?_, h1, h2, List.mem_append.mpr (Or.inr h3)⟩
  rw [List.filter_append, holdn, List.nil_append, hfil]

theorem resolveName_some {ρ : Type} (idOf : ρ → Nat) (nameOf : ρ → String) (tbl : List ρ)
    {dflt : Option Nat} {did : Nat} {r : ρ}
    (hd : dflt = some did) (hf : tbl.find? (fun x => idOf x == did) = some r) :
    resolveName idOf nameOf tbl dflt = some (nameOf r) := by
  unfold resolveName
  rw [hd]
  show (tbl.find? fun x => idOf x == did).map nameOf = _
  rw [hf]
  rfl

theorem djangoGet_eq_ok {ρ : Type} {tbl : List ρ} {pred : ρ → Bool} {r : ρ}
    (h : tbl.filter pred = [r]) : djangoGet tbl pred = .ok r := by
  unfold djangoGet
  rw [h]


theorem setDefault_points_uniform (c : Bool) (tbl : List PointsRow) (pred : PointsRow → Bool)
    (proj : Project) (hcase : c = false → ∃ nr, tbl.filter pred = [nr]) :
    ∃ d', setDefault c proj tbl pred (fun row => { proj with default_points := some row.id }) =
        .ok { proj with default_points := d' }
      ∧ (c = true → d' = proj.default_points)
      ∧ (c = false → ∃ nr, tbl.filter pred = [nr] ∧ d' = some nr.id) := by
  cases c with
  | true =>
    refine ⟨proj.default_points, ?_, fun _ => rfl, fun hf => absurd hf (by simp)⟩
    unfold setDefault
    rfl
  | false =>
    obtain ⟨nr, hnr⟩ := hcase rfl
    refine ⟨some nr.id, ?_, fun ht => absurd ht (by simp), fun _ => ⟨nr, hnr, rfl⟩⟩
    unfold setDefault
    rw [if_neg (by simp)]
    rw [djangoGet_eq_ok hnr, except_ok_bind]

theorem setDefault_us_status_uniform (c : Bool) (tbl : List UserStoryStatusRow) (pred : UserStoryStatusRow → Bool)
    (proj : Project) (hcase : c = false → ∃ nr, tbl.filter pred = [nr]) :
    ∃ d', setDefault c proj tbl pred (fun row => { proj with default_us_status := some row.id }) =
        .ok { proj with default_us_status := d' }
      ∧ (c = true → d' = proj.default_us_status)
      ∧ (c = false → ∃ nr, tbl.filter pred = [nr] ∧ d' = some nr.id) := by
  cases c with
  | true =>
    refine ⟨proj.default_us_status, ?_, fun _ => rfl, fun hf => absurd hf (by simp)⟩
    unfold setDefault
    rfl
  | false =>
    obtain ⟨nr, hnr⟩ := hcase rfl
    refine ⟨some nr.id, ?_, fun ht => absurd ht (by simp), fun _ => ⟨nr, hnr, rfl⟩⟩
    unfold setDefault
    rw [if_neg (by simp)]
    rw [djangoGet_eq_ok hnr, except_ok_bind]

theorem setDefault_task_status_uniform (c : Bool) (tbl : List TaskStatusRow) (pred : TaskStatusRow → Bool)
    (proj : Project) (hcase : c = false → ∃ nr, tbl.filter pred = [nr]) :
    ∃ d', setDefault c proj tbl pred (fun row => { proj with default_task_status := some row.id }) =
        .ok { proj with default_task_status := d' }
      ∧ (c = true → d' = proj.default_task_status)
      ∧ (c = false → ∃ nr, tbl.filter pred = [nr] ∧ d' = some nr.id) := by
  cases c with
  | true =>
    refine ⟨proj.default_task_status, ?_, fun _ => rfl, fun hf => absurd hf (by simp)⟩
    unfold setDefault
    rfl
  | false =>
    obtain ⟨nr, hnr⟩ := hcase rfl
    refine ⟨some nr.id, ?_, fun ht => absurd ht (by simp), fun _ => ⟨nr, hnr, rfl⟩⟩
    unfold setDefault
    rw [if_neg (by simp)]
    rw [djangoGet_eq_ok hnr, except_ok_bind]

theorem setDefault_issue_status_uniform (c : Bool) (tbl : List IssueStatusRow) (pred : IssueStatusRow → Bool)
    (proj : Project) (hcase : c = false → ∃ nr, tbl.filter pred = [nr]) :
    ∃ d', setDefault c proj tbl pred (fun row => { proj with default_issue_status := some row.id }) =
        .ok { proj with default_issue_status := d' }
      ∧ (c = true → d' = proj.default_issue_status)
      ∧ (c = false → ∃ nr, tbl.filter pred = [nr] ∧ d' = some nr.id) := by
  cases c with
  | true =>
    refine ⟨proj.default_issue_status, ?_, fun _ => rfl, fun hf => absurd hf (by simp)⟩
    unfold setDefault
    rfl
  | false =>
    obtain ⟨nr, hnr⟩ := hcase rfl
    refine ⟨some nr.id, ?_, fun ht => absurd ht (by simp), fun _ => ⟨nr, hnr, rfl⟩⟩
    unfold setDefault
    rw [if_neg (by simp)]
    rw [djangoGet_eq_ok hnr, except_ok_bind]

theorem setDefault_issue_type_uniform (c : Bool) (tbl : List IssueTypeRow) (pred : IssueTypeRow → Bool)
    (proj : Project) (hcase : c = false → ∃ nr, tbl.filter pred = [nr]) :
    ∃ d', setDefault c proj tbl pred (fun row => { proj with default_issue_type := some row.id }) =
        .ok { proj with default_issue_type := d' }
      ∧ (c = true → d' = proj.default_issue_type)
      ∧ (c = false → ∃ nr, tbl.filter pred = [nr] ∧ d' = some nr.id) := by
  cases c with
  | true =>
    refine ⟨proj.default_issue_type, ?_, fun _ => rfl, fun hf => absurd hf (by simp)⟩
    unfold setDefault
    rfl
  | false =>
    obtain ⟨nr, hnr⟩ := hcase rfl
    refine ⟨some nr.id, ?_, fun ht => absurd ht (by simp), fun _ => ⟨nr, hnr, rfl⟩⟩
    unfold setDefault
    rw [if_neg (by simp)]
    rw [djangoGet_eq_ok hnr, except_ok_bind]

theorem setDefault_priority_uniform (c : Bool) (tbl : List PriorityRow) (pred : PriorityRow → Bool)
    (proj : Project) (hcase : c = false → ∃ nr, tbl.filter pred = [nr]) :
    ∃ d', setDefault c proj tbl pred (fun row => { proj with default_priority := some row.id }) =
        .ok { proj with default_priority := d' }
      ∧ (c = true → d' = proj.default_priority)
      ∧ (c = false → ∃ nr, tbl.filter pred = [nr] ∧ d' = some nr.id) := by
  cases c with
  | true =>
    refine ⟨proj.default_priority, ?_, fun _ => rfl, fun hf => absurd hf (by simp)⟩
    unfold setDefault
    rfl
  | false =>
    obtain ⟨nr, hnr⟩ := hcase rfl
    refine ⟨some nr.id, ?_, fun ht => absurd ht (by simp), fun _ => ⟨nr, hnr, rfl⟩⟩
    unfold setDefault
    rw [if_neg (by simp)]
    rw [djangoGet_eq_ok hnr, except_ok_bind]

theorem setDefault_severity_uniform (c : Bool) (tbl : List SeverityRow) (pred : SeverityRow → Bool)
    (proj : Project) (hcase : c = false → ∃ nr, tbl.filter pred = [nr]) :
    ∃ d', setDefault c proj tbl pred (fun row => { proj with default_severity := some row.id }) =
        .ok { proj with default_severity := d' }
      ∧ (c = true → d' = proj.default_severity)
      ∧ (c = false → ∃ nr, tbl.filter pred = [nr] ∧ d' = some nr.id) := by
  cases c with
  | true =>
    refine ⟨proj.default_severity, ?_, fun _ => rfl, fun hf => absurd hf (by simp)⟩
    unfold setDefault
    rfl
  | false =>
    obtain ⟨nr, hnr⟩ := hcase rfl
    refine ⟨some nr.id, ?_, fun ht => absurd ht (by simp), fun _ => ⟨nr, hnr, rfl⟩⟩
    unfold setDefault
    rw [if_neg (by simp)]
    rw [djangoGet_eq_ok hnr, except_ok_bind]


/-- The defaults-resolution chain of `apply_to_project` succeeds whenever
every non-empty snapshot list admits a unique name lookup, and each
`default_*` pointer of the result is either untouched (empty snapshot) or
set to the pk of the unique matching row. -/
theorem applyDefaults_ok (t : ProjectTemplate) (db2 : DB) (pid : Nat) (proj0 : Project)
    (hc1 : t.points.isEmpty = false → ∃ nr, db2.points.filter
      (fun r => (some r.name == t.default_options.points) && (r.project == pid)) = [nr])
    (hc2 : t.us_statuses.isEmpty = false → ∃ nr, db2.us_statuses.filter
      (fun r => (some r.name == t.default_options.us_status) && (r.project == pid)) = [nr])
    (hc3 : t.task_statuses.isEmpty = false → ∃ nr, db2.task_statuses.filter
      (fun r => (some r.name == t.default_options.task_status) && (r.project == pid)) = [nr])
    (hc4 : t.issue_statuses.isEmpty = false → ∃ nr, db2.issue_statuses.filter
      (fun r => (some r.name == t.default_options.issue_status) && (r.project == pid)) = [nr])
    (hc5 : t.issue_types.isEmpty = false → ∃ nr, db2.issue_types.filter
      (fun r => (some r.name == t.default_options.issue_type) && (r.project == pid)) = [nr])
    (hc6 : t.priorities.isEmpty = false → ∃ nr, db2.priorities.filter
      (fun r => (some r.name == t.default_options.priority) && (r.project == pid)) = [nr])
    (hc7 : t.severities.isEmpty = false → ∃ nr, db2.severities.filter
      (fun r => (some r.name == t.default_options.severity) && (r.project == pid)) = [nr]) :
    ∃ p2, applyDefaults t db2 pid proj0 = .ok p2
      ∧ (t.points.isEmpty = true → p2.default_points = proj0.default_points)
      ∧ (t.points.isEmpty = false → ∃ nr, db2.points.filter
          (fun r => (some r.name == t.default_options.points) && (r.project == pid)) = [nr]
          ∧ p2.default_points = some nr.id)
      ∧ (t.us_statuses.isEmpty = true → p2.default_us_status = proj0.default_us_status)
      ∧ (t.us_statuses.isEmpty = false → ∃ nr, db2.us_statuses.filter
          (fun r => (some r.name == t.default_options.us_status) && (r.project == pid)) = [nr]
          ∧ p2.default_us_status = some nr.id)
      ∧ (t.task_statuses.isEmpty = true → p2.default_task_status = proj0.default_task_status)
      ∧ (t.task_statuses.isEmpty = false → ∃ nr, db2.task_statuses.filter
          (fun r => (some r.name == t.default_options.task_status) && (r.project == pid)) = [nr]
          ∧ p2.default_task_status = some nr.id)
      ∧ (t.issue_statuses.isEmpty = true → p2.default_issue_status = proj0.default_issue_status)
      ∧ (t.issue_statuses.isEmpty = false → ∃ nr, db2.issue_statuses.filter
          (fun r => (some r.name == t.default_options.issue_status) && (r.project == pid)) = [nr]
          ∧ p2.default_issue_status = some nr.id)
      ∧ (t.issue_types.isEmpty = true → p2.default_issue_type = proj0.default_issue_type)
      ∧ (t.issue_types.isEmpty = false → ∃ nr, db2.issue_types.filter
          (fun r => (some r.name == t.default_options.issue_type) && (r.project == pid)) = [nr]
          ∧ p2.default_issue_type = some nr.id)
      ∧ (t.priorities.isEmpty = true → p2.default_priority = proj0.default_priority)
      ∧ (t.priorities.isEmpty = false → ∃ nr, db2.priorities.filter
          (fun r => (some r.name == t.default_options.priority) && (r.project == pid)) = [nr]
          ∧ p2.default_priority = some nr.id)
      ∧ (t.severities.isEmpty = true → p2.default_severity = proj0.default_severity)
      ∧ (t.severities.isEmpty = false → ∃ nr, db2.severities.filter
          (fun r => (some r.name == t.default_options.severity) && (r.project == pid)) = [nr]
          ∧ p2.default_severity = some nr.id) := by
  obtain ⟨d1, hs1, hs1t, hs1f⟩ := setDefault_points_uniform t.points.isEmpty db2.points _
    proj0 hc1
  obtain ⟨d2, hs2, hs2t, hs2f⟩ := setDefault_us_status_uniform t.us_statuses.isEmpty db2.us_statuses _
    { proj0 with default_points := d1 } hc2
  obtain ⟨d3, hs3, hs3t, hs3f⟩ := setDefault_task_status_uniform t.task_statuses.isEmpty db2.task_statuses _
    { proj0 with default_points := d1, default_us_status := d2 } hc3
  obtain ⟨d4, hs4, hs4t, hs4f⟩ := setDefault_issue_status_uniform t.issue_statuses.isEmpty db2.issue_statuses _
    { proj0 with default_points := d1, default_us_status := d2, default_task_status := d3 } hc4
  obtain ⟨d5, hs5, hs5t, hs5f⟩ := setDefault_issue_type_uniform t.issue_types.isEmpty db2.issue_types _
    { proj0 with default_points := d1, default_us_status := d2, default_task_status := d3, default_issue_status := d4 } hc5
  obtain ⟨d6, hs6, hs6t, hs6f⟩ := setDefault_priority_uniform t.priorities.isEmpty db2.priorities _
    { proj0 with default_points := d1, default_us_status := d2, default_task_status := d3, default_issue_status := d4, default_issue_type := d5 } hc6
  obtain ⟨d7, hs7, hs7t, hs7f⟩ := setDefault_severity_uniform t.severities.isEmpty db2.severities _
    { proj0 with default_points := d1, default_us_status := d2, default_task_status := d3, default_issue_status := d4, default_issue_type := d5, default_priority := d6 } hc7
  refine ⟨{ proj0 with default_points := d1, default_us_status := d2, default_task_status := d3, default_issue_status := d4, default_issue_type := d5, default_priority := d6, default_severity := d7 }, ?_, hs1t, hs1f, hs2t, hs2f, hs3t, hs3f, hs4t, hs4f, hs5t, hs5f, hs6t, hs6f, hs7t, hs7f⟩
  unfold applyDefaults
  rw [hs1, except_ok_bind, hs2, except_ok_bind, hs3, except_ok_bind, hs4, except_ok_bind, hs5, except_ok_bind, hs6, except_ok_bind, hs7, except_ok_bind]




theorem appliedTaxonomies_us_statuses (db : DB) (t : ProjectTemplate) (pid : Nat) :
    (appliedTaxonomies db t pid).us_statuses =
      db.us_statuses ++ newRows (mkUsStatusRow pid) (db.next_id) t.us_statuses := by
  unfold appliedTaxonomies
  dsimp only
  simp only [createRows_eq]

theorem appliedTaxonomies_points (db : DB) (t : ProjectTemplate) (pid : Nat) :
    (appliedTaxonomies db t pid).points =
      db.points ++ newRows (mkPointsRow pid) (db.next_id + t.us_statuses.length) t.points := by
  unfold appliedTaxonomies
  dsimp only
  simp only [createRows_eq]

theorem appliedTaxonomies_task_statuses (db : DB) (t : ProjectTemplate) (pid : Nat) :
    (appliedTaxonomies db t pid).task_statuses =
      db.task_statuses ++ newRows (mkTaskStatusRow pid) (db.next_id + t.us_statuses.length + t.points.length) t.task_statuses := by
  unfold appliedTaxonomies
  dsimp only
  simp only [createRows_eq]

theorem appliedTaxonomies_issue_statuses (db : DB) (t : ProjectTemplate) (pid : Nat) :
    (appliedTaxonomies db t pid).issue_statuses =
      db.issue_statuses ++ newRows (mkIssueStatusRow pid) (db.next_id + t.us_statuses.length + t.points.length + t.task_statuses.length) t.issue_statuses := by
  unfold appliedTaxonomies
  dsimp only
  simp only [createRows_eq]

theorem appliedTaxonomies_issue_types (db : DB) (t : ProjectTemplate) (pid : Nat) :
    (appliedTaxonomies db t pid).issue_types =
      db.issue_types ++ newRows (mkIssueTypeRow pid) (db.next_id + t.us_statuses.length + t.points.length + t.task_statuses.length + t.issue_statuses.length) t.issue_types := by
  unfold appliedTaxonomies
  dsimp only
  simp only [createRows_eq]

theorem appliedTaxonomies_priorities (db : DB) (t : ProjectTemplate) (pid : Nat) :
    (appliedTaxonomies db t pid).priorities =
      db.priorities ++ newRows (mkPriorityRow pid) (db.next_id + t.us_statuses.length + t.points.length + t.task_statuses.length + t.issue_statuses.length + t.issue_types.length) t.priorities := by
  unfold appliedTaxonomies
  dsimp only
  simp only [createRows_eq]

theorem appliedTaxonomies_severities (db : DB) (t : ProjectTemplate) (pid : Nat) :
    (appliedTaxonomies db t pid).severities =
      db.severities ++ newRows (mkSeverityRow pid) (db.next_id + t.us_statuses.length + t.points.length + t.task_statuses.length + t.issue_statuses.length + t.issue_types.length + t.priorities.length) t.severities := by
  unfold appliedTaxonomies
  dsimp only
  simp only [createRows_eq]

theorem appliedTaxonomies_roles (db : DB) (t : ProjectTemplate) (pid : Nat) :
    (appliedTaxonomies db t pid).roles =
      db.roles ++ newRows (mkRoleRow pid) (db.next_id + t.us_statuses.length + t.points.length + t.task_statuses.length + t.issue_statuses.length + t.issue_types.length + t.priorities.length + t.severities.length) t.roles := by
  unfold appliedTaxonomies
  dsimp only
  simp only [createRows_eq]


theorem isEmpty_false_of_ne_nil {α : Type} {l : List α} (h : l ≠ []) : l.isEmpty = false := by
  cases l with
  | nil => exact absurd rfl h
  | cons a t => rfl

/-- C1: loading a template from a project P with consistent, uniquely named
taxonomy records and applying it to a saved empty project P2 creates, per
taxonomy, exactly as many rows scoped to P2 as P has, and points each of
P2's `default_*` fields at the freshly created row of P2 whose name equals
the name of P's corresponding default record; a `default_*` pointer is only
set when the corresponding snapshot list is non-empty. -/
theorem C1_template_round_trip
    (db : DB) (p p2 : Project) (t0 : ProjectTemplate) (pid pid2 : Nat)
    (hp : p.id = some pid) (hp2 : p2.id = some pid2)
    (hempty : noProjectRows db pid2)
    (hnd_pts : nodupNames_points db pid)
    (hnd_us : nodupNames_us_statuses db pid)
    (hnd_task : nodupNames_task_statuses db pid)
    (hnd_istat : nodupNames_issue_statuses db pid)
    (hnd_itype : nodupNames_issue_types db pid)
    (hnd_prio : nodupNames_priorities db pid)
    (hnd_sev : nodupNames_severities db pid)
    (hd_pts : defaultOk_points db p.default_points pid)
    (hd_us : defaultOk_us_statuses db p.default_us_status pid)
    (hd_task : defaultOk_task_statuses db p.default_task_status pid)
    (hd_istat : defaultOk_issue_statuses db p.default_issue_status pid)
    (hd_itype : defaultOk_issue_types db p.default_issue_type pid)
    (hd_prio : defaultOk_priorities db p.default_priority pid)
    (hd_sev : defaultOk_severities db p.default_severity pid)
    (hrole : ownerRoleOk db p) :
    ∃ t p2a db2,
      ProjectTemplate.load_data_from_project db p t0 = .ok t
      ∧ ProjectTemplate.apply_to_project db t p2 = .ok (p2a, db2)
      ∧ (db2.us_statuses.filter (fun r => r.project == pid2)).length = (db.us_statuses.filter (fun r => r.project == pid)).length
      ∧ (db2.points.filter (fun r => r.project == pid2)).length = (db.points.filter (fun r => r.project == pid)).length
      ∧ (db2.task_statuses.filter (fun r => r.project == pid2)).length = (db.task_statuses.filter (fun r => r.project == pid)).length
      ∧ (db2.issue_statuses.filter (fun r => r.project == pid2)).length = (db.issue_statuses.filter (fun r => r.project == pid)).length
      ∧ (db2.issue_types.filter (fun r => r.project == pid2)).length = (db.issue_types.filter (fun r => r.project == pid)).length
      ∧ (db2.priorities.filter (fun r => r.project == pid2)).length = (db.priorities.filter (fun r => r.project == pid)).length
      ∧ (db2.severities.filter (fun r => r.project == pid2)).length = (db.severities.filter (fun r => r.project == pid)).length
      ∧ (db2.roles.filter (fun r => r.project == pid2)).length = (db.roles.filter (fun r => r.project == pid)).length
      ∧ (∀ did r, p.default_points = some did → db.points.find? (fun x => x.id == did) = some r →
          ∃ nr, nr ∈ db2.points ∧ p2a.default_points = some nr.id ∧ nr.project = pid2 ∧ nr.name = r.name)
      ∧ (∀ did r, p.default_us_status = some did → db.us_statuses.find? (fun x => x.id == did) = some r →
          ∃ nr, nr ∈ db2.us_statuses ∧ p2a.default_us_status = some nr.id ∧ nr.project = pid2 ∧ nr.name = r.name)
      ∧ (∀ did r, p.default_task_status = some did → db.task_statuses.find? (fun x => x.id == did) = some r →
          ∃ nr, nr ∈ db2.task_statuses ∧ p2a.default_task_status = some nr.id ∧ nr.project = pid2 ∧ nr.name = r.name)
      ∧ (∀ did r, p.default_issue_status = some did → db.issue_statuses.find? (fun x => x.id == did) = some r →
          ∃ nr, nr ∈ db2.issue_statuses ∧ p2a.default_issue_status = some nr.id ∧ nr.project = pid2 ∧ nr.name = r.name)
      ∧ (∀ did r, p.default_issue_type = some did → db.issue_types.find? (fun x => x.id == did) = some r →
          ∃ nr, nr ∈ db2.issue_types ∧ p2a.default_issue_type = some nr.id ∧ nr.project = pid2 ∧ nr.name = r.name)
      ∧ (∀ did r, p.default_priority = some did → db.priorities.find? (fun x => x.id == did) = some r →
          ∃ nr, nr ∈ db2.priorities ∧ p2a.default_priority = some nr.id ∧ nr.project = pid2 ∧ nr.name = r.name)
      ∧ (∀ did r, p.default_severity = some did → db.severities.find? (fun x => x.id == did) = some r →
          ∃ nr, nr ∈ db2.severities ∧ p2a.default_severity = some nr.id ∧ nr.project = pid2 ∧ nr.name = r.name)
      ∧ (p.default_points = none → p2a.default_points = p2.default_points)
      ∧ (p.default_us_status = none → p2a.default_us_status = p2.default_us_status)
      ∧ (p.default_task_status = none → p2a.default_task_status = p2.default_task_status)
      ∧ (p.default_issue_status = none → p2a.default_issue_status = p2.default_issue_status)
      ∧ (p.default_issue_type = none → p2a.default_issue_type = p2.default_issue_type)
      ∧ (p.default_priority = none → p2a.default_priority = p2.default_priority)
      ∧ (p.default_severity = none → p2a.default_severity = p2.default_severity) := by
  unfold nodupNames_points at hnd_pts
  unfold nodupNames_us_statuses at hnd_us
  unfold nodupNames_task_statuses at hnd_task
  unfold nodupNames_issue_statuses at hnd_istat
  unfold nodupNames_issue_types at hnd_itype
  unfold nodupNames_priorities at hnd_prio
  unfold nodupNames_severities at hnd_sev
  unfold defaultOk_points at hd_pts
  unfold defaultOk_us_statuses at hd_us
  unfold defaultOk_task_statuses at hd_task
  unfold defaultOk_issue_statuses at hd_istat
  unfold defaultOk_issue_types at hd_itype
  unfold defaultOk_priorities at hd_prio
  unfold defaultOk_severities at hd_sev
  obtain ⟨he_us, he_pts, he_task, he_istat, he_itype, he_prio, he_sev, he_roles⟩ := hempty
  unfold ownerRoleOk at hrole
  cases hget : djangoGet db.memberships (fun m => (some m.project == p.id) && (m.user == p.owner)) with
  | error e =>
    rw [hget] at hrole
    simp at hrole
  | ok m =>
    rw [hget] at hrole
    dsimp only at hrole
    cases hfr : db.roles.find? (fun r => r.id == m.role) with
    | none =>
      rw [hfr] at hrole
      simp at hrole
    | some role =>
      have hT_us : (snapshotTemplate db p t0).us_statuses = (db.us_statuses.filter (fun r => r.project == pid)).map (fun r => ({ name := r.name, slug := r.slug, is_closed := r.is_closed, is_archived := r.is_archived, color := r.color, wip_limit := r.wip_limit, order := r.order } : UserStoryStatusData)) := by
        have h0 : (snapshotTemplate db p t0).us_statuses = (db.us_statuses.filter (fun r => some r.project == p.id)).map (fun r => ({ name := r.name, slug := r.slug, is_closed := r.is_closed, is_archived := r.is_archived, color := r.color, wip_limit := r.wip_limit, order := r.order } : UserStoryStatusData)) := rfl
        rw [h0, filter_some_proj (fun r => r.project) db.us_statuses pid p.id hp]
      have hT_us_len : (snapshotTemplate db p t0).us_statuses.length = (db.us_statuses.filter (fun r => r.project == pid)).length := by
        rw [hT_us, List.length_map]
      have hT_us_nm : (snapshotTemplate db p t0).us_statuses.map (fun d => d.name) = (db.us_statuses.filter (fun r => r.project == pid)).map (fun r => r.name) := by
        rw [hT_us, List.map_map]
        rfl
      have hT_pts : (snapshotTemplate db p t0).points = (db.points.filter (fun r => r.project == pid)).map (fun r => ({ name := r.name, value := r.value, order := r.order } : PointsData)) := by
        have h0 : (snapshotTemplate db p t0).points = (db.points.filter (fun r => some r.project == p.id)).map (fun r => ({ name := r.name, value := r.value, order := r.order } : PointsData)) := rfl
        rw [h0, filter_some_proj (fun r => r.project) db.points pid p.id hp]
      have hT_pts_len : (snapshotTemplate db p t0).points.length = (db.points.filter (fun r => r.project == pid)).length := by
        rw [hT_pts, List.length_map]
      have hT_pts_nm : (snapshotTemplate db p t0).points.map (fun d => d.name) = (db.points.filter (fun r => r.project == pid)).map (fun r => r.name) := by
        rw [hT_pts, List.map_map]
        rfl
      have hT_task : (snapshotTemplate db p t0).task_statuses = (db.task_statuses.filter (fun r => r.project == pid)).map (fun r => ({ name := r.name, slug := r.slug, is_closed := r.is_closed, color := r.color, order := r.order } : TaskStatusData)) := by
        have h0 : (snapshotTemplate db p t0).task_statuses = (db.task_statuses.filter (fun r => some r.project == p.id)).map (fun r => ({ name := r.name, slug := r.slug, is_closed := r.is_closed, color := r.color, order := r.order } : TaskStatusData)) := rfl
        rw [h0, filter_some_proj (fun r => r.project) db.task_statuses pid p.id hp]
      have hT_task_len : (snapshotTemplate db p t0).task_statuses.length = (db.task_statuses.filter (fun r => r.project == pid)).length := by
        rw [hT_task, List.length_map]
      have hT_task_nm : (snapshotTemplate db p t0).task_statuses.map (fun d => d.name) = (db.task_statuses.filter (fun r => r.project == pid)).map (fun r => r.name) := by
        rw [hT_task, List.map_map]
        rfl
      have hT_istat : (snapshotTemplate db p t0).issue_statuses = (db.issue_statuses.filter (fun r => r.project == pid)).map (fun r => ({ name := r.name, slug := r.slug, is_closed := r.is_closed, color := r.color, order := r.order } : IssueStatusData)) := by
        have h0 : (snapshotTemplate db p t0).issue_statuses = (db.issue_statuses.filter (fun r => some r.project == p.id)).map (fun r => ({ name := r.name, slug := r.slug, is_closed := r.is_closed, color := r.color, order := r.order } : IssueStatusData)) := rfl
        rw [h0, filter_some_proj (fun r => r.project) db.issue_statuses pid p.id hp]
      have hT_istat_len : (snapshotTemplate db p t0).issue_statuses.length = (db.issue_statuses.filter (fun r => r.project == pid)).length := by
        rw [hT_istat, List.length_map]
      have hT_istat_nm : (snapshotTemplate db p t0).issue_statuses.map (fun d => d.name) = (db.issue_statuses.filter (fun r => r.project == pid)).map (fun r => r.name) := by
        rw [hT_istat, List.map_map]
        rfl
      have hT_itype : (snapshotTemplate db p t0).issue_types = (db.issue_types.filter (fun r => r.project == pid)).map (fun r => ({ name := r.name, color := r.color, order := r.order } : IssueTypeData)) := by
        have h0 : (snapshotTemplate db p t0).issue_types = (db.issue_types.filter (fun r => some r.project == p.id)).map (fun r => ({ name := r.name, color := r.color, order := r.order } : IssueTypeData)) := rfl
        rw [h0, filter_some_proj (fun r => r.project) db.issue_types pid p.id hp]
      have hT_itype_len : (snapshotTemplate db p t0).issue_types.length = (db.issue_types.filter (fun r => r.project == pid)).length := by
        rw [hT_itype, List.length_map]
      have hT_itype_nm : (snapshotTemplate db p t0).issue_types.map (fun d => d.name) = (db.issue_types.filter (fun r => r.project == pid)).map (fun r => r.name) := by
        rw [hT_itype, List.map_map]
        rfl
      have hT_prio : (snapshotTemplate db p t0).priorities = (db.priorities.filter (fun r => r.project == pid)).map (fun r => ({ name := r.name, color := r.color, order := r.order } : PriorityData)) := by
        have h0 : (snapshotTemplate db p t0).priorities = (db.priorities.filter (fun r => some r.project == p.id)).map (fun r => ({ name := r.name, color := r.color, order := r.order } : PriorityData)) := rfl
        rw [h0, filter_some_proj (fun r => r.project) db.priorities pid p.id hp]
      have hT_prio_len : (snapshotTemplate db p t0).priorities.length = (db.priorities.filter (fun r => r.project == pid)).length := by
        rw [hT_prio, List.length_map]
      have hT_prio_nm : (snapshotTemplate db p t0).priorities.map (fun d => d.name) = (db.priorities.filter (fun r => r.project == pid)).map (fun r => r.name) := by
        rw [hT_prio, List.map_map]
        rfl
      have hT_sev : (snapshotTemplate db p t0).severities = (db.severities.filter (fun r => r.project == pid)).map (fun r => ({ name := r.name, color := r.color, order := r.order } : SeverityData)) := by
        have h0 : (snapshotTemplate db p t0).severities = (db.severities.filter (fun r => some r.project == p.id)).map (fun r => ({ name := r.name, color := r.color, order := r.order } : SeverityData)) := rfl
        rw [h0, filter_some_proj (fun r => r.project) db.severities pid p.id hp]
      have hT_sev_len : (snapshotTemplate db p t0).severities.length = (db.severities.filter (fun r => r.project == pid)).length := by
        rw [hT_sev, List.length_map]
      have hT_sev_nm : (snapshotTemplate db p t0).severities.map (fun d => d.name) = (db.severities.filter (fun r => r.project == pid)).map (fun r => r.name) := by
        rw [hT_sev, List.map_map]
        rfl
      have hT_roles : (snapshotTemplate db p t0).roles = (db.roles.filter (fun r => r.project == pid)).map (fun r => ({ name := r.name, slug := r.slug, permissions := r.permissions, order := r.order, computable := r.computable } : RoleData)) := by
        have h0 : (snapshotTemplate db p t0).roles = (db.roles.filter (fun r => some r.project == p.id)).map (fun r => ({ name := r.name, slug := r.slug, permissions := r.permissions, order := r.order, computable := r.computable } : RoleData)) := rfl
        rw [h0, filter_some_proj (fun r => r.project) db.roles pid p.id hp]
      have hT_roles_len : (snapshotTemplate db p t0).roles.length = (db.roles.filter (fun r => r.project == pid)).length := by
        rw [hT_roles, List.length_map]
      obtain ⟨P2a, happly, ht1, hf1, ht2, hf2, ht3, hf3, ht4, hf4, ht5, hf5, ht6, hf6, ht7, hf7⟩ :=
        applyDefaults_ok ({ snapshotTemplate db p t0 with default_owner_role := some role.slug }) (appliedTaxonomies db ({ snapshotTemplate db p t0 with default_owner_role := some role.slug }) pid2) pid2
        (appliedFlags ({ snapshotTemplate db p t0 with default_owner_role := some role.slug }) p2)
        (by
          intro hne
          cases hdp : p.default_points with
          | none =>
            have hd2 := hd_pts
            unfold defaultOk at hd2
            rw [hdp] at hd2
            dsimp only at hd2
            have hnil : (snapshotTemplate db p t0).points = [] := by rw [hT_pts, hd2]; rfl
            have htr : ({ snapshotTemplate db p t0 with default_owner_role := some role.slug } : ProjectTemplate).points.isEmpty = true := by
              show (snapshotTemplate db p t0).points.isEmpty = true
              rw [hnil]
              rfl
            rw [htr] at hne
            exact absurd hne (by decide)
          | some did =>
            have hd2 := hd_pts
            unfold defaultOk at hd2
            rw [hdp] at hd2
            dsimp only at hd2
            cases hfp : db.points.find? (fun x => x.id == did) with
            | none => rw [hfp] at hd2; exact hd2.elim
            | some r =>
              rw [hfp] at hd2
              dsimp only at hd2
              have hnm : ({ snapshotTemplate db p t0 with default_owner_role := some role.slug } : ProjectTemplate).default_options.points = some r.name :=
                resolveName_some (fun x : PointsRow => x.id) (fun x : PointsRow => x.name) db.points hdp hfp
              have hrmem : r ∈ db.points.filter (fun x => x.project == pid) := by
                rw [List.mem_filter]
                exact ⟨List.mem_of_find?_eq_some hfp, by simp [hd2]⟩
              have hnodup2 : ((snapshotTemplate db p t0).points.map (fun d => d.name)).Nodup := by
                rw [hT_pts_nm]
                exact hnd_pts
              have hmemnm : r.name ∈ (snapshotTemplate db p t0).points.map (fun d => d.name) := by
                rw [hT_pts_nm]
                exact List.mem_map_of_mem (fun x => x.name) hrmem
              obtain ⟨nr, hfil, hn1, hn2, hn3⟩ := lookup_case (mkPointsRow pid2) (fun x => x.name)
                (fun x => x.project) (fun d => d.name) pid2 r.name db.points (snapshotTemplate db p t0).points
                (db.next_id + (snapshotTemplate db p t0).us_statuses.length) (fun i d => rfl) (fun i d => rfl) he_pts hnodup2 hmemnm
              refine ⟨nr, ?_⟩
              simp only [appliedTaxonomies_points]
              have hnm2 : (snapshotTemplate db p t0).default_options.points = some r.name := hnm
              rw [hnm2]
              exact hfil)
        (by
          intro hne
          cases hdp : p.default_us_status with
          | none =>
            have hd2 := hd_us
            unfold defaultOk at hd2
            rw [hdp] at hd2
            dsimp only at hd2
            have hnil : (snapshotTemplate db p t0).us_statuses = [] := by rw [hT_us, hd2]; rfl
            have htr : ({ snapshotTemplate db p t0 with default_owner_role := some role.slug } : ProjectTemplate).us_statuses.isEmpty = true := by
              show (snapshotTemplate db p t0).us_statuses.isEmpty = true
              rw [hnil]
              rfl
            rw [htr] at hne
            exact absurd hne (by decide)
          | some did =>
            have hd2 := hd_us
            unfold defaultOk at hd2
            rw [hdp] at hd2
            dsimp only at hd2
            cases hfp : db.us_statuses.find? (fun x => x.id == did) with
            | none => rw [hfp] at hd2; exact hd2.elim
            | some r =>
              rw [hfp] at hd2
              dsimp only at hd2
              have hnm : ({ snapshotTemplate db p t0 with default_owner_role := some role.slug } : ProjectTemplate).default_options.us_status = some r.name :=
                resolveName_some (fun x : UserStoryStatusRow => x.id) (fun x : UserStoryStatusRow => x.name) db.us_statuses hdp hfp
              have hrmem : r ∈ db.us_statuses.filter (fun x => x.project == pid) := by
                rw [List.mem_filter]
                exact ⟨List.mem_of_find?_eq_some hfp, by simp [hd2]⟩
              have hnodup2 : ((snapshotTemplate db p t0).us_statuses.map (fun d => d.name)).Nodup := by
                rw [hT_us_nm]
                exact hnd_us
              have hmemnm : r.name ∈ (snapshotTemplate db p t0).us_statuses.map (fun d => d.name) := by
                rw [hT_us_nm]
                exact List.mem_map_of_mem (fun x => x.name) hrmem
              obtain ⟨nr, hfil, hn1, hn2, hn3⟩ := lookup_case (mkUsStatusRow pid2) (fun x => x.name)
                (fun x => x.project) (fun d => d.name) pid2 r.name db.us_statuses (snapshotTemplate db p t0).us_statuses
                (db.next_id) (fun i d => rfl) (fun i d => rfl) he_us hnodup2 hmemnm
              refine ⟨nr, ?_⟩
              simp only [appliedTaxonomies_us_statuses]
              have hnm2 : (snapshotTemplate db p t0).default_options.us_status = some r.name := hnm
              rw [hnm2]
              exact hfil)
        (by
          intro hne
          cases hdp : p.default_task_status with
          | none =>
            have hd2 := hd_task
            unfold defaultOk at hd2
            rw [hdp] at hd2
            dsimp only at hd2
            have hnil : (snapshotTemplate db p t0).task_statuses = [] := by rw [hT_task, hd2]; rfl
            have htr : ({ snapshotTemplate db p t0 with default_owner_role := some role.slug } : ProjectTemplate).task_statuses.isEmpty = true := by
              show (snapshotTemplate db p t0).task_statuses.isEmpty = true
              rw [hnil]
              rfl
            rw [htr] at hne
            exact absurd hne (by decide)
          | some did =>
            have hd2 := hd_task
            unfold defaultOk at hd2
            rw [hdp] at hd2
            dsimp only at hd2
            cases hfp : db.task_statuses.find? (fun x => x.id == did) with
            | none => rw [hfp] at hd2; exact hd2.elim
            | some r =>
              rw [hfp] at hd2
              dsimp only at hd2
              have hnm : ({ snapshotTemplate db p t0 with default_owner_role := some role.slug } : ProjectTemplate).default_options.task_status = some r.name :=
                resolveName_some (fun x : TaskStatusRow => x.id) (fun x : TaskStatusRow => x.name) db.task_statuses hdp hfp
              have hrmem : r ∈ db.task_statuses.filter (fun x => x.project == pid) := by
                rw [List.mem_filter]
                exact ⟨List.mem_of_find?_eq_some hfp, by simp [hd2]⟩
              have hnodup2 : ((snapshotTemplate db p t0).task_statuses.map (fun d => d.name)).Nodup := by
                rw [hT_task_nm]
                exact hnd_task
              have hmemnm : r.name ∈ (snapshotTemplate db p t0).task_statuses.map (fun d => d.name) := by
                rw [hT_task_nm]
                exact List.mem_map_of_mem (fun x => x.name) hrmem
              obtain ⟨nr, hfil, hn1, hn2, hn3⟩ := lookup_case (mkTaskStatusRow pid2) (fun x => x.name)
                (fun x => x.project) (fun d => d.name) pid2 r.name db.task_statuses (snapshotTemplate db p t0).task_statuses
                (db.next_id + (snapshotTemplate db p t0).us_statuses.length + (snapshotTemplate db p t0).points.length) (fun i d => rfl) (fun i d => rfl) he_task hnodup2 hmemnm
              refine ⟨nr, ?_⟩
              simp only [appliedTaxonomies_task_statuses]
              have hnm2 : (snapshotTemplate db p t0).default_options.task_status = some r.name := hnm
              rw [hnm2]
              exact hfil)
        (by
          intro hne
          cases hdp : p.default_issue_status with
          | none =>
            have hd2 := hd_istat
            unfold defaultOk at hd2
            rw [hdp] at hd2
            dsimp only at hd2
            have hnil : (snapshotTemplate db p t0).issue_statuses = [] := by rw [hT_istat, hd2]; rfl
            have htr : ({ snapshotTemplate db p t0 with default_owner_role := some role.slug } : ProjectTemplate).issue_statuses.isEmpty = true := by
              show (snapshotTemplate db p t0).issue_statuses.isEmpty = true
              rw [hnil]
              rfl
            rw [htr] at hne
            exact absurd hne (by decide)
          | some did =>
            have hd2 := hd_istat
            unfold defaultOk at hd2
            rw [hdp] at hd2
            dsimp only at hd2
            cases hfp : db.issue_statuses.find? (fun x => x.id == did) with
            | none => rw [hfp] at hd2; exact hd2.elim
            | some r =>
              rw [hfp] at hd2
              dsimp only at hd2
              have hnm : ({ snapshotTemplate db p t0 with default_owner_role := some role.slug } : ProjectTemplate).default_options.issue_status = some r.name :=
                resolveName_some (fun x : IssueStatusRow => x.id) (fun x : IssueStatusRow => x.name) db.issue_statuses hdp hfp
              have hrmem : r ∈ db.issue_statuses.filter (fun x => x.project == pid) := by
                rw [List.mem_filter]
                exact ⟨List.mem_of_find?_eq_some hfp, by simp [hd2]⟩
              have hnodup2 : ((snapshotTemplate db p t0).issue_statuses.map (fun d => d.name)).Nodup := by
                rw [hT_istat_nm]
                exact hnd_istat
              have hmemnm : r.name ∈ (snapshotTemplate db p t0).issue_statuses.map (fun d => d.name) := by
                rw [hT_istat_nm]
                exact List.mem_map_of_mem (fun x => x.name) hrmem
              obtain ⟨nr, hfil, hn1, hn2, hn3⟩ := lookup_case (mkIssueStatusRow pid2) (fun x => x.name)
                (fun x => x.project) (fun d => d.name) pid2 r.name db.issue_statuses (snapshotTemplate db p t0).issue_statuses
                (db.next_id + (snapshotTemplate db p t0).us_statuses.length + (snapshotTemplate db p t0).points.length + (snapshotTemplate db p t0).task_statuses.length) (fun i d => rfl) (fun i d => rfl) he_istat hnodup2 hmemnm
              refine ⟨nr, ?_⟩
              simp only [appliedTaxonomies_issue_statuses]
              have hnm2 : (snapshotTemplate db p t0).default_options.issue_status = some r.name := hnm
              rw [hnm2]
              exact hfil)
        (by
          intro hne
          cases hdp : p.default_issue_type with
          | none =>
            have hd2 := hd_itype
            unfold defaultOk at hd2
            rw [hdp] at hd2
            dsimp only at hd2
            have hnil : (snapshotTemplate db p t0).issue_types = [] := by rw [hT_itype, hd2]; rfl
            have htr : ({ snapshotTemplate db p t0 with default_owner_role := some role.slug } : ProjectTemplate).issue_types.isEmpty = true := by
              show (snapshotTemplate db p t0).issue_types.isEmpty = true
              rw [hnil]
              rfl
            rw [htr] at hne
            exact absurd hne (by decide)
          | some did =>
            have hd2 := hd_itype
            unfold defaultOk at hd2
            rw [hdp] at hd2
            dsimp only at hd2
            cases hfp : db.issue_types.find? (fun x => x.id == did) with
            | none => rw [hfp] at hd2; exact hd2.elim
            | some r =>
              rw [hfp] at hd2
              dsimp only at hd2
              have hnm : ({ snapshotTemplate db p t0 with default_owner_role := some role.slug } : ProjectTemplate).default_options.issue_type = some r.name :=
                resolveName_some (fun x : IssueTypeRow => x.id) (fun x : IssueTypeRow => x.name) db.issue_types hdp hfp
              have hrmem : r ∈ db.issue_types.filter (fun x => x.project == pid) := by
                rw [List.mem_filter]
                exact ⟨List.mem_of_find?_eq_some hfp, by simp [hd2]⟩
              have hnodup2 : ((snapshotTemplate db p t0).issue_types.map (fun d => d.name)).Nodup := by
                rw [hT_itype_nm]
                exact hnd_itype
              have hmemnm : r.name ∈ (snapshotTemplate db p t0).issue_types.map (fun d => d.name) := by
                rw [hT_itype_nm]
                exact List.mem_map_of_mem (fun x => x.name) hrmem
              obtain ⟨nr, hfil, hn1, hn2, hn3⟩ := lookup_case (mkIssueTypeRow pid2) (fun x => x.name)
                (fun x => x.project) (fun d => d.name) pid2 r.name db.issue_types (snapshotTemplate db p t0).issue_types
                (db.next_id + (snapshotTemplate db p t0).us_statuses.length + (snapshotTemplate db p t0).points.length + (snapshotTemplate db p t0).task_statuses.length + (snapshotTemplate db p t0).issue_statuses.length) (fun i d => rfl) (fun i d => rfl) he_itype hnodup2 hmemnm
              refine ⟨nr, ?_⟩
              simp only [appliedTaxonomies_issue_types]
              have hnm2 : (snapshotTemplate db p t0).default_options.issue_type = some r.name := hnm
              rw [hnm2]
              exact hfil)
        (by
          intro hne
          cases hdp : p.default_priority with
          | none =>
            have hd2 := hd_prio
            unfold defaultOk at hd2
            rw [hdp] at hd2
            dsimp only at hd2
            have hnil : (snapshotTemplate db p t0).priorities = [] := by rw [hT_prio, hd2]; rfl
            have htr : ({ snapshotTemplate db p t0 with default_owner_role := some role.slug } : ProjectTemplate).priorities.isEmpty = true := by
              show (snapshotTemplate db p t0).priorities.isEmpty = true
              rw [hnil]
              rfl
            rw [htr] at hne
            exact absurd hne (by decide)
          | some did =>
            have hd2 := hd_prio
            unfold defaultOk at hd2
            rw [hdp] at hd2
            dsimp only at hd2
            cases hfp : db.priorities.find? (fun x => x.id == did) with
            | none => rw [hfp] at hd2; exact hd2.elim
            | some r =>
              rw [hfp] at hd2
              dsimp only at hd2
              have hnm : ({ snapshotTemplate db p t0 with default_owner_role := some role.slug } : ProjectTemplate).default_options.priority = some r.name :=
                resolveName_some (fun x : PriorityRow => x.id) (fun x : PriorityRow => x.name) db.priorities hdp hfp
              have hrmem : r ∈ db.priorities.filter (fun x => x.project == pid) := by
                rw [List.mem_filter]
                exact ⟨List.mem_of_find?_eq_some hfp, by simp [hd2]⟩
              have hnodup2 : ((snapshotTemplate db p t0).priorities.map (fun d => d.name)).Nodup := by
                rw [hT_prio_nm]
                exact hnd_prio
              have hmemnm : r.name ∈ (snapshotTemplate db p t0).priorities.map (fun d => d.name) := by
                rw [hT_prio_nm]
                exact List.mem_map_of_mem (fun x => x.name) hrmem
              obtain ⟨nr, hfil, hn1, hn2, hn3⟩ := lookup_case (mkPriorityRow pid2) (fun x => x.name)
                (fun x => x.project) (fun d => d.name) pid2 r.name db.priorities (snapshotTemplate db p t0).priorities
                (db.next_id + (snapshotTemplate db p t0).us_statuses.length + (snapshotTemplate db p t0).points.length + (snapshotTemplate db p t0).task_statuses.length + (snapshotTemplate db p t0).issue_statuses.length + (snapshotTemplate db p t0).issue_types.length) (fun i d => rfl) (fun i d => rfl) he_prio hnodup2 hmemnm
              refine ⟨nr, ?_⟩
              simp only [appliedTaxonomies_priorities]
              have hnm2 : (snapshotTemplate db p t0).default_options.priority = some r.name := hnm
              rw [hnm2]
              exact hfil)
        (by
          intro hne
          cases hdp : p.default_severity with
          | none =>
            have hd2 := hd_sev
            unfold defaultOk at hd2
            rw [hdp] at hd2
            dsimp only at hd2
            have hnil : (snapshotTemplate db p t0).severities = [] := by rw [hT_sev, hd2]; rfl
            have htr : ({ snapshotTemplate db p t0 with default_owner_role := some role.slug } : ProjectTemplate).severities.isEmpty = true := by
              show (snapshotTemplate db p t0).severities.isEmpty = true
              rw [hnil]
              rfl
            rw [htr] at hne
            exact absurd hne (by decide)
          | some did =>
            have hd2 := hd_sev
            unfold defaultOk at hd2
            rw [hdp] at hd2
            dsimp only at hd2
            cases hfp : db.severities.find? (fun x => x.id == did) with
            | none => rw [hfp] at hd2; exact hd2.elim
            | some r =>
              rw [hfp] at hd2
              dsimp only at hd2
              have hnm : ({ snapshotTemplate db p t0 with default_owner_role := some role.slug } : ProjectTemplate).default_options.severity = some r.name :=
                resolveName_some (fun x : SeverityRow => x.id) (fun x : SeverityRow => x.name) db.severities hdp hfp
              have hrmem : r ∈ db.severities.filter (fun x => x.project == pid) := by
                rw [List.mem_filter]
                exact ⟨List.mem_of_find?_eq_some hfp, by simp [hd2]⟩
              have hnodup2 : ((snapshotTemplate db p t0).severities.map (fun d => d.name)).Nodup := by
                rw [hT_sev_nm]
                exact hnd_sev
              have hmemnm : r.name ∈ (snapshotTemplate db p t0).severities.map (fun d => d.name) := by
                rw [hT_sev_nm]
                exact List.mem_map_of_mem (fun x => x.name) hrmem
              obtain ⟨nr, hfil, hn1, hn2, hn3⟩ := lookup_case (mkSeverityRow pid2) (fun x => x.name)
                (fun x => x.project) (fun d => d.name) pid2 r.name db.severities (snapshotTemplate db p t0).severities
                (db.next_id + (snapshotTemplate db p t0).us_statuses.length + (snapshotTemplate db p t0).points.length + (snapshotTemplate db p t0).task_statuses.length + (snapshotTemplate db p t0).issue_statuses.length + (snapshotTemplate db p t0).issue_types.length + (snapshotTemplate db p t0).priorities.length) (fun i d => rfl) (fun i d => rfl) he_sev hnodup2 hmemnm
              refine ⟨nr, ?_⟩
              simp only [appliedTaxonomies_severities]
              have hnm2 : (snapshotTemplate db p t0).default_options.severity = some r.name := hnm
              rw [hnm2]
              exact hfil)
      refine ⟨{ snapshotTemplate db p t0 with default_owner_role := some role.slug }, P2a, appliedTaxonomies db ({ snapshotTemplate db p t0 with default_owner_role := some role.slug }) pid2, ?_, ?_, ?_, ?_, ?_, ?_, ?_, ?_, ?_, ?_, ?_, ?_, ?_, ?_, ?_, ?_, ?_, ?_, ?_, ?_, ?_, ?_, ?_, ?_⟩
      · unfold ProjectTemplate.load_data_from_project
        dsimp only
        rw [hget]
        dsimp only
        rw [hfr]
      · unfold ProjectTemplate.apply_to_project
        rw [hp2]
        dsimp only
        rw [happly]
      · rw [appliedTaxonomies_us_statuses]
        dsimp only
        rw [filter_proj_append_new (fun x => x.project) pid2 db.us_statuses _ he_us
          (newRows_forall_proj (mkUsStatusRow pid2) (fun x => x.project) pid2 (fun i d => rfl) (db.next_id) (snapshotTemplate db p t0).us_statuses)]
        rw [newRows_length]
        exact hT_us_len
      · rw [appliedTaxonomies_points]
        dsimp only
        rw [filter_proj_append_new (fun x => x.project) pid2 db.points _ he_pts
          (newRows_forall_proj (mkPointsRow pid2) (fun x => x.project) pid2 (fun i d => rfl) (db.next_id + (snapshotTemplate db p t0).us_statuses.length) (snapshotTemplate db p t0).points)]
        rw [newRows_length]
        exact hT_pts_len
      · rw [appliedTaxonomies_task_statuses]
        dsimp only
        rw [filter_proj_append_new (fun x => x.project) pid2 db.task_statuses _ he_task
          (newRows_forall_proj (mkTaskStatusRow pid2) (fun x => x.project) pid2 (fun i d => rfl) (db.next_id + (snapshotTemplate db p t0).us_statuses.length + (snapshotTemplate db p t0).points.length) (snapshotTemplate db p t0).task_statuses)]
        rw [newRows_length]
        exact hT_task_len
      · rw [appliedTaxonomies_issue_statuses]
        dsimp only
        rw [filter_proj_append_new (fun x => x.project) pid2 db.issue_statuses _ he_istat
          (newRows_forall_proj (mkIssueStatusRow pid2) (fun x => x.project) pid2 (fun i d => rfl) (db.next_id + (snapshotTemplate db p t0).us_statuses.length + (snapshotTemplate db p t0).points.length + (snapshotTemplate db p t0).task_statuses.length) (snapshotTemplate db p t0).issue_statuses)]
        rw [newRows_length]
        exact hT_istat_len
      · rw [appliedTaxonomies_issue_types]
        dsimp only
        rw [filter_proj_append_new (fun x => x.project) pid2 db.issue_types _ he_itype
          (newRows_forall_proj (mkIssueTypeRow pid2) (fun x => x.project) pid2 (fun i d => rfl) (db.next_id + (snapshotTemplate db p t0).us_statuses.length + (snapshotTemplate db p t0).points.length + (snapshotTemplate db p t0).task_statuses.length + (snapshotTemplate db p t0).issue_statuses.length) (snapshotTemplate db p t0).issue_types)]
        rw [newRows_length]
        exact hT_itype_len
      · rw [appliedTaxonomies_priorities]
        dsimp only
        rw [filter_proj_append_new (fun x => x.project) pid2 db.priorities _ he_prio
          (newRows_forall_proj (mkPriorityRow pid2) (fun x => x.project) pid2 (fun i d => rfl) (db.next_id + (snapshotTemplate db p t0).us_statuses.length + (snapshotTemplate db p t0).points.length + (snapshotTemplate db p t0).task_statuses.length + (snapshotTemplate db p t0).issue_statuses.length + (snapshotTemplate db p t0).issue_types.length) (snapshotTemplate db p t0).priorities)]
        rw [newRows_length]
        exact hT_prio_len
      · rw [appliedTaxonomies_severities]
        dsimp only
        rw [filter_proj_append_new (fun x => x.project) pid2 db.severities _ he_sev
          (newRows_forall_proj (mkSeverityRow pid2) (fun x => x.project) pid2 (fun i d => rfl) (db.next_id + (snapshotTemplate db p t0).us_statuses.length + (snapshotTemplate db p t0).points.length + (snapshotTemplate db p t0).task_statuses.length + (snapshotTemplate db p t0).issue_statuses.length + (snapshotTemplate db p t0).issue_types.length + (snapshotTemplate db p t0).priorities.length) (snapshotTemplate db p t0).severities)]
        rw [newRows_length]
        exact hT_sev_len
      · rw [appliedTaxonomies_roles]
        dsimp only
        rw [filter_proj_append_new (fun x => x.project) pid2 db.roles _ he_roles
          (newRows_forall_proj (mkRoleRow pid2) (fun x => x.project) pid2 (fun i d => rfl) (db.next_id + (snapshotTemplate db p t0).us_statuses.length + (snapshotTemplate db p t0).points.length + (snapshotTemplate db p t0).task_statuses.length + (snapshotTemplate db p t0).issue_statuses.length + (snapshotTemplate db p t0).issue_types.length + (snapshotTemplate db p t0).priorities.length + (snapshotTemplate db p t0).severities.length) (snapshotTemplate db p t0).roles)]
        rw [newRows_length]
        exact hT_roles_len
      · intro did r hdp hfp
        have hd2 := hd_pts
        unfold defaultOk at hd2
        rw [hdp] at hd2
        dsimp only at hd2
        rw [hfp] at hd2
        dsimp only at hd2
        have hnm : ({ snapshotTemplate db p t0 with default_owner_role := some role.slug } : ProjectTemplate).default_options.points = some r.name :=
          resolveName_some (fun x : PointsRow => x.id) (fun x : PointsRow => x.name) db.points hdp hfp
        have hrmem : r ∈ db.points.filter (fun x => x.project == pid) := by
          rw [List.mem_filter]
          exact ⟨List.mem_of_find?_eq_some hfp, by simp [hd2]⟩
        have hposlen : 0 < (snapshotTemplate db p t0).points.length := by
          rw [hT_pts_len]
          exact List.length_pos.mpr (List.ne_nil_of_mem hrmem)
        have hfalse : ({ snapshotTemplate db p t0 with default_owner_role := some role.slug } : ProjectTemplate).points.isEmpty = false :=
          isEmpty_false_of_ne_nil (List.length_pos.mp hposlen)
        obtain ⟨nr, hfil, hset⟩ := hf1 hfalse
        have hnr_mem := List.mem_filter.mp (by rw [hfil]; exact List.mem_cons_self nr [])
        have hpred := hnr_mem.2
        rw [hnm] at hpred
        have hb := Bool.and_eq_true_iff.mp hpred
        refine ⟨nr, hnr_mem.1, hset, beq_iff_eq.mp hb.2, ?_⟩
        have hb1 := hb.1
        rw [some_beq_some] at hb1
        exact beq_iff_eq.mp hb1
      · intro did r hdp hfp
        have hd2 := hd_us
        unfold defaultOk at hd2
        rw [hdp] at hd2
        dsimp only at hd2
        rw [hfp] at hd2
        dsimp only at hd2
        have hnm : ({ snapshotTemplate db p t0 with default_owner_role := some role.slug } : ProjectTemplate).default_options.us_status = some r.name :=
          resolveName_some (fun x : UserStoryStatusRow => x.id) (fun x : UserStoryStatusRow => x.name) db.us_statuses hdp hfp
        have hrmem : r ∈ db.us_statuses.filter (fun x => x.project == pid) := by
          rw [List.mem_filter]
          exact ⟨List.mem_of_find?_eq_some hfp, by simp [hd2]⟩
        have hposlen : 0 < (snapshotTemplate db p t0).us_statuses.length := by
          rw [hT_us_len]
          exact List.length_pos.mpr (List.ne_nil_of_mem hrmem)
        have hfalse : ({ snapshotTemplate db p t0 with default_owner_role := some role.slug } : ProjectTemplate).us_statuses.isEmpty = false :=
          isEmpty_false_of_ne_nil (List.length_pos.mp hposlen)
        obtain ⟨nr, hfil, hset⟩ := hf2 hfalse
        have hnr_mem := List.mem_filter.mp (by rw [hfil]; exact List.mem_cons_self nr [])
        have hpred := hnr_mem.2
        rw [hnm] at hpred
        have hb := Bool.and_eq_true_iff.mp hpred
        refine ⟨nr, hnr_mem.1, hset, beq_iff_eq.mp hb.2, ?_⟩
        have hb1 := hb.1
        rw [some_beq_some] at hb1
        exact beq_iff_eq.mp hb1
      · intro did r hdp hfp
        have hd2 := hd_task
        unfold defaultOk at hd2
        rw [hdp] at hd2
        dsimp only at hd2
        rw [hfp] at hd2
        dsimp only at hd2
        have hnm : ({ snapshotTemplate db p t0 with default_owner_role := some role.slug } : ProjectTemplate).default_options.task_status = some r.name :=
          resolveName_some (fun x : TaskStatusRow => x.id) (fun x : TaskStatusRow => x.name) db.task_statuses hdp hfp
        have hrmem : r ∈ db.task_statuses.filter (fun x => x.project == pid) := by
          rw [List.mem_filter]
          exact ⟨List.mem_of_find?_eq_some hfp, by simp [hd2]⟩
        have hposlen : 0 < (snapshotTemplate db p t0).task_statuses.length := by
          rw [hT_task_len]
          exact List.length_pos.mpr (List.ne_nil_of_mem hrmem)
        have hfalse : ({ snapshotTemplate db p t0 with default_owner_role := some role.slug } : ProjectTemplate).task_statuses.isEmpty = false :=
          isEmpty_false_of_ne_nil (List.length_pos.mp hposlen)
        obtain ⟨nr, hfil, hset⟩ := hf3 hfalse
        have hnr_mem := List.mem_filter.mp (by rw [hfil]; exact List.mem_cons_self nr [])
        have hpred := hnr_mem.2
        rw [hnm] at hpred
        have hb := Bool.and_eq_true_iff.mp hpred
        refine ⟨nr, hnr_mem.1, hset, beq_iff_eq.mp hb.2, ?_⟩
        have hb1 := hb.1
        rw [some_beq_some] at hb1
        exact beq_iff_eq.mp hb1
      · intro did r hdp hfp
        have hd2 := hd_istat
        unfold defaultOk at hd2
        rw [hdp] at hd2
        dsimp only at hd2
        rw [hfp] at hd2
        dsimp only at hd2
        have hnm : ({ snapshotTemplate db p t0 with default_owner_role := some role.slug } : ProjectTemplate).default_options.issue_status = some r.name :=
          resolveName_some (fun x : IssueStatusRow => x.id) (fun x : IssueStatusRow => x.name) db.issue_statuses hdp hfp
        have hrmem : r ∈ db.issue_statuses.filter (fun x => x.project == pid) := by
          rw [List.mem_filter]
          exact ⟨List.mem_of_find?_eq_some hfp, by simp [hd2]⟩
        have hposlen : 0 < (snapshotTemplate db p t0).issue_statuses.length := by
          rw [hT_istat_len]
          exact List.length_pos.mpr (List.ne_nil_of_mem hrmem)
        have hfalse : ({ snapshotTemplate db p t0 with default_owner_role := some role.slug } : ProjectTemplate).issue_statuses.isEmpty = false :=
          isEmpty_false_of_ne_nil (List.length_pos.mp hposlen)
        obtain ⟨nr, hfil, hset⟩ := hf4 hfalse
        have hnr_mem := List.mem_filter.mp (by rw [hfil]; exact List.mem_cons_self nr [])
        have hpred := hnr_mem.2
        rw [hnm] at hpred
        have hb := Bool.and_eq_true_iff.mp hpred
        refine ⟨nr, hnr_mem.1, hset, beq_iff_eq.mp hb.2, ?_⟩
        have hb1 := hb.1
        rw [some_beq_some] at hb1
        exact beq_iff_eq.mp hb1
      · intro did r hdp hfp
        have hd2 := hd_itype
        unfold defaultOk at hd2
        rw [hdp] at hd2
        dsimp only at hd2
        rw [hfp] at hd2
        dsimp only at hd2
        have hnm : ({ snapshotTemplate db p t0 with default_owner_role := some role.slug } : ProjectTemplate).default_options.issue_type = some r.name :=
          resolveName_some (fun x : IssueTypeRow => x.id) (fun x : IssueTypeRow => x.name) db.issue_types hdp hfp
        have hrmem : r ∈ db.issue_types.filter (fun x => x.project == pid) := by
          rw [List.mem_filter]
          exact ⟨List.mem_of_find?_eq_some hfp, by simp [hd2]⟩
        have hposlen : 0 < (snapshotTemplate db p t0).issue_types.length := by
          rw [hT_itype_len]
          exact List.length_pos.mpr (List.ne_nil_of_mem hrmem)
        have hfalse : ({ snapshotTemplate db p t0 with default_owner_role := some role.slug } : ProjectTemplate).issue_types.isEmpty = false :=
          isEmpty_false_of_ne_nil (List.length_pos.mp hposlen)
        obtain ⟨nr, hfil, hset⟩ := hf5 hfalse
        have hnr_mem := List.mem_filter.mp (by rw [hfil]; exact List.mem_cons_self nr [])
        have hpred := hnr_mem.2
        rw [hnm] at hpred
        have hb := Bool.and_eq_true_iff.mp hpred
        refine ⟨nr, hnr_mem.1, hset, beq_iff_eq.mp hb.2, ?_⟩
        have hb1 := hb.1
        rw [some_beq_some] at hb1
        exact beq_iff_eq.mp hb1
      · intro did r hdp hfp
        have hd2 := hd_prio
        unfold defaultOk at hd2
        rw [hdp] at hd2
        dsimp only at hd2
        rw [hfp] at hd2
        dsimp only at hd2
        have hnm : ({ snapshotTemplate db p t0 with default_owner_role := some role.slug } : ProjectTemplate).default_options.priority = some r.name :=
          resolveName_some (fun x : PriorityRow => x.id) (fun x : PriorityRow => x.name) db.priorities hdp hfp
        have hrmem : r ∈ db.priorities.filter (fun x => x.project == pid) := by
          rw [List.mem_filter]
          exact ⟨List.mem_of_find?_eq_some hfp, by simp [hd2]⟩
        have hposlen : 0 < (snapshotTemplate db p t0).priorities.length := by
          rw [hT_prio_len]
          exact List.length_pos.mpr (List.ne_nil_of_mem hrmem)
        have hfalse : ({ snapshotTemplate db p t0 with default_owner_role := some role.slug } : ProjectTemplate).priorities.isEmpty = false :=
          isEmpty_false_of_ne_nil (List.length_pos.mp hposlen)
        obtain ⟨nr, hfil, hset⟩ := hf6 hfalse
        have hnr_mem := List.mem_filter.mp (by rw [hfil]; exact List.mem_cons_self nr [])
        have hpred := hnr_mem.2
        rw [hnm] at hpred
        have hb := Bool.and_eq_true_iff.mp hpred
        refine ⟨nr, hnr_mem.1, hset, beq_iff_eq.mp hb.2, ?_⟩
        have hb1 := hb.1
        rw [some_beq_some] at hb1
        exact beq_iff_eq.mp hb1
      · intro did r hdp hfp
        have hd2 := hd_sev
        unfold defaultOk at hd2
        rw [hdp] at hd2
        dsimp only at hd2
        rw [hfp] at hd2
        dsimp only at hd2
        have hnm : ({ snapshotTemplate db p t0 with default_owner_role := some role.slug } : ProjectTemplate).default_options.severity = some r.name :=
          resolveName_some (fun x : SeverityRow => x.id) (fun x : SeverityRow => x.name) db.severities hdp hfp
        have hrmem : r ∈ db.severities.filter (fun x => x.project == pid) := by
          rw [List.mem_filter]
          exact ⟨List.mem_of_find?_eq_some hfp, by simp [hd2]⟩
        have hposlen : 0 < (snapshotTemplate db p t0).severities.length := by
          rw [hT_sev_len]
          exact List.length_pos.mpr (List.ne_nil_of_mem hrmem)
        have hfalse : ({ snapshotTemplate db p t0 with default_owner_role := some role.slug } : ProjectTemplate).severities.isEmpty = false :=
          isEmpty_false_of_ne_nil (List.length_pos.mp hposlen)
        obtain ⟨nr, hfil, hset⟩ := hf7 hfalse
        have hnr_mem := List.mem_filter.mp (by rw [hfil]; exact List.mem_cons_self nr [])
        have hpred := hnr_mem.2
        rw [hnm] at hpred
        have hb := Bool.and_eq_true_iff.mp hpred
        refine ⟨nr, hnr_mem.1, hset, beq_iff_eq.mp hb.2, ?_⟩
        have hb1 := hb.1
        rw [some_beq_some] at hb1
        exact beq_iff_eq.mp hb1
      · intro hdp
        have hd2 := hd_pts
        unfold defaultOk at hd2
        rw [hdp] at hd2
        dsimp only at hd2
        have hnil : (snapshotTemplate db p t0).points = [] := by rw [hT_pts, hd2]; rfl
        have htr : ({ snapshotTemplate db p t0 with default_owner_role := some role.slug } : ProjectTemplate).points.isEmpty = true := by
          show (snapshotTemplate db p t0).points.isEmpty = true
          rw [hnil]
          rfl
        exact ht1 htr
      · intro hdp
        have hd2 := hd_us
        unfold defaultOk at hd2
        rw [hdp] at hd2
        dsimp only at hd2
        have hnil : (snapshotTemplate db p t0).us_statuses = [] := by rw [hT_us, hd2]; rfl
        have htr : ({ snapshotTemplate db p t0 with default_owner_role := some role.slug } : ProjectTemplate).us_statuses.isEmpty = true := by
          show (snapshotTemplate db p t0).us_statuses.isEmpty = true
          rw [hnil]
          rfl
        exact ht2 htr
      · intro hdp
        have hd2 := hd_task
        unfold defaultOk at hd2
        rw [hdp] at hd2
        dsimp only at hd2
        have hnil : (snapshotTemplate db p t0).task_statuses = [] := by rw [hT_task, hd2]; rfl
        have htr : ({ snapshotTemplate db p t0 with default_owner_role := some role.slug } : ProjectTemplate).task_statuses.isEmpty = true := by
          show (snapshotTemplate db p t0).task_statuses.isEmpty = true
          rw [hnil]
          rfl
        exact ht3 htr
      · intro hdp
        have hd2 := hd_istat
        unfold defaultOk at hd2
        rw [hdp] at hd2
        dsimp only at hd2
        have hnil : (snapshotTemplate db p t0).issue_statuses = [] := by rw [hT_istat, hd2]; rfl
        have htr : ({ snapshotTemplate db p t0 with default_owner_role := some role.slug } : ProjectTemplate).issue_statuses.isEmpty = true := by
          show (snapshotTemplate db p t0).issue_statuses.isEmpty = true
          rw [hnil]
          rfl
        exact ht4 htr
      · intro hdp
        have hd2 := hd_itype
        unfold defaultOk at hd2
        rw [hdp] at hd2
        dsimp only at hd2
        have hnil : (snapshotTemplate db p t0).issue_types = [] := by rw [hT_itype, hd2]; rfl
        have htr : ({ snapshotTemplate db p t0 with default_owner_role := some role.slug } : ProjectTemplate).issue_types.isEmpty = true := by
          show (snapshotTemplate db p t0).issue_types.isEmpty = true
          rw [hnil]
          rfl
        exact ht5 htr
      · intro hdp
        have hd2 := hd_prio
        unfold defaultOk at hd2
        rw [hdp] at hd2
        dsimp only at hd2
        have hnil : (snapshotTemplate db p t0).priorities = [] := by rw [hT_prio, hd2]; rfl
        have htr : ({ snapshotTemplate db p t0 with default_owner_role := some role.slug } : ProjectTemplate).priorities.isEmpty = true := by
          show (snapshotTemplate db p t0).priorities.isEmpty = true
          rw [hnil]
          rfl
        exact ht6 htr
      · intro hdp
        have hd2 := hd_sev
        unfold defaultOk at hd2
        rw [hdp] at hd2
        dsimp only at hd2
        have hnil : (snapshotTemplate db p t0).severities = [] := by rw [hT_sev, hd2]; rfl
        have htr : ({ snapshotTemplate db p t0 with default_owner_role := some role.slug } : ProjectTemplate).severities.isEmpty = true := by
          show (snapshotTemplate db p t0).severities.isEmpty = true
          rw [hnil]
          rfl
        exact ht7 htr

/-- Concrete instantiation of the C1 round-trip property: the template is
loaded from project 1 of `sourceDB` and applied to the empty saved
project 2, with every hypothesis discharged by computation. -/
theorem C1_template_round_trip_witness :
    sourceProject.id = some 1
    ∧ targetProject.id = some 2
    ∧ noProjectRows sourceDB 2
    ∧ nodupNames_points sourceDB 1
    ∧ nodupNames_us_statuses sourceDB 1
    ∧ nodupNames_task_statuses sourceDB 1
    ∧ nodupNames_issue_statuses sourceDB 1
    ∧ nodupNames_issue_types sourceDB 1
    ∧ nodupNames_priorities sourceDB 1
    ∧ nodupNames_severities sourceDB 1
    ∧ defaultOk_points sourceDB sourceProject.default_points 1
    ∧ defaultOk_us_statuses sourceDB sourceProject.default_us_status 1
    ∧ defaultOk_task_statuses sourceDB sourceProject.default_task_status 1
    ∧ defaultOk_issue_statuses sourceDB sourceProject.default_issue_status 1
    ∧ defaultOk_issue_types sourceDB sourceProject.default_issue_type 1
    ∧ defaultOk_priorities sourceDB sourceProject.default_priority 1
    ∧ defaultOk_severities sourceDB sourceProject.default_severity 1
    ∧ ownerRoleOk sourceDB sourceProject
    ∧ (∃ t p2a db2,
      ProjectTemplate.load_data_from_project sourceDB sourceProject emptyTemplate = .ok t
      ∧ ProjectTemplate.apply_to_project sourceDB t targetProject = .ok (p2a, db2)
      ∧ (db2.us_statuses.filter (fun r => r.project == 2)).length = (sourceDB.us_statuses.filter (fun r => r.project == 1)).length
      ∧ (db2.points.filter (fun r => r.project == 2)).length = (sourceDB.points.filter (fun r => r.project == 1)).length
      ∧ (db2.task_statuses.filter (fun r => r.project == 2)).length = (sourceDB.task_statuses.filter (fun r => r.project == 1)).length
      ∧ (db2.issue_statuses.filter (fun r => r.project == 2)).length = (sourceDB.issue_statuses.filter (fun r => r.project == 1)).length
      ∧ (db2.issue_types.filter (fun r => r.project == 2)).length = (sourceDB.issue_types.filter (fun r => r.project == 1)).length
      ∧ (db2.priorities.filter (fun r => r.project == 2)).length = (sourceDB.priorities.filter (fun r => r.project == 1)).length
      ∧ (db2.severities.filter (fun r => r.project == 2)).length = (sourceDB.severities.filter (fun r => r.project == 1)).length
      ∧ (db2.roles.filter (fun r => r.project == 2)).length = (sourceDB.roles.filter (fun r => r.project == 1)).length
      ∧ (∀ did r, sourceProject.default_points = some did → sourceDB.points.find? (fun x => x.id == did) = some r →
          ∃ nr, nr ∈ db2.points ∧ p2a.default_points = some nr.id ∧ nr.project = 2 ∧ nr.name = r.name)
      ∧ (∀ did r, sourceProject.default_us_status = some did → sourceDB.us_statuses.find? (fun x => x.id == did) = some r →
          ∃ nr, nr ∈ db2.us_statuses ∧ p2a.default_us_status = some nr.id ∧ nr.project = 2 ∧ nr.name = r.name)
      ∧ (∀ did r, sourceProject.default_task_status = some did → sourceDB.task_statuses.find? (fun x => x.id == did) = some r →
          ∃ nr, nr ∈ db2.task_statuses ∧ p2a.default_task_status = some nr.id ∧ nr.project = 2 ∧ nr.name = r.name)
      ∧ (∀ did r, sourceProject.default_issue_status = some did → sourceDB.issue_statuses.find? (fun x => x.id == did) = some r →
          ∃ nr, nr ∈ db2.issue_statuses ∧ p2a.default_issue_status = some nr.id ∧ nr.project = 2 ∧ nr.name = r.name)
      ∧ (∀ did r, sourceProject.default_issue_type = some did → sourceDB.issue_types.find? (fun x => x.id == did) = some r →
          ∃ nr, nr ∈ db2.issue_types ∧ p2a.default_issue_type = some nr.id ∧ nr.project = 2 ∧ nr.name = r.name)
      ∧ (∀ did r, sourceProject.default_priority = some did → sourceDB.priorities.find? (fun x => x.id == did) = some r →
          ∃ nr, nr ∈ db2.priorities ∧ p2a.default_priority = some nr.id ∧ nr.project = 2 ∧ nr.name = r.name)
      ∧ (∀ did r, sourceProject.default_severity = some did → sourceDB.severities.find? (fun x => x.id == did) = some r →
          ∃ nr, nr ∈ db2.severities ∧ p2a.default_severity = some nr.id ∧ nr.project = 2 ∧ nr.name = r.name)
      ∧ (sourceProject.default_points = none → p2a.default_points = targetProject.default_points)
      ∧ (sourceProject.default_us_status = none → p2a.default_us_status = targetProject.default_us_status)
      ∧ (sourceProject.default_task_status = none → p2a.default_task_status = targetProject.default_task_status)
      ∧ (sourceProject.default_issue_status = none → p2a.default_issue_status = targetProject.default_issue_status)
      ∧ (sourceProject.default_issue_type = none → p2a.default_issue_type = targetProject.default_issue_type)
      ∧ (sourceProject.default_priority = none → p2a.default_priority = targetProject.default_priority)
      ∧ (sourceProject.default_severity = none → p2a.default_severity = targetProject.default_severity)) :=
  have he : noProjectRows sourceDB 2 := ⟨rfl, rfl, rfl, rfl, rfl, rfl, rfl, rfl⟩
  have n1 : nodupNames_points sourceDB 1 := by unfold nodupNames_points ; decide
  have n2 : nodupNames_us_statuses sourceDB 1 := by unfold nodupNames_us_statuses ; decide
  have n3 : nodupNames_task_statuses sourceDB 1 := by unfold nodupNames_task_statuses ; decide
  have n4 : nodupNames_issue_statuses sourceDB 1 := by unfold nodupNames_issue_statuses ; decide
  have n5 : nodupNames_issue_types sourceDB 1 := by unfold nodupNames_issue_types ; decide
  have n6 : nodupNames_priorities sourceDB 1 := by unfold nodupNames_priorities ; decide
  have n7 : nodupNames_severities sourceDB 1 := by unfold nodupNames_severities ; decide
  have d1 : defaultOk_points sourceDB sourceProject.default_points 1 := rfl
  have d2 : defaultOk_us_statuses sourceDB sourceProject.default_us_status 1 := rfl
  have d3 : defaultOk_task_statuses sourceDB sourceProject.default_task_status 1 := rfl
  have d4 : defaultOk_issue_statuses sourceDB sourceProject.default_issue_status 1 := rfl
  have d5 : defaultOk_issue_types sourceDB sourceProject.default_issue_type 1 := rfl
  have d6 : defaultOk_priorities sourceDB sourceProject.default_priority 1 := rfl
  have d7 : defaultOk_severities sourceDB sourceProject.default_severity 1 := rfl
  have hr : ownerRoleOk sourceDB sourceProject := rfl
  ⟨rfl, rfl, he, n1, n2, n3, n4, n5, n6, n7, d1, d2, d3, d4, d5, d6, d7, hr,
    C1_template_round_trip sourceDB sourceProject targetProject emptyTemplate 1 2 rfl rfl
      he n1 n2 n3 n4 n5 n6 n7 d1 d2 d3 d4 d5 d6 d7 hr⟩

end projects

end taiga
